import Mathlib

/-!
axiogate: provider resolution and fan-out dispatch.

A shallow embedding of `shipment/shipment.go` (the job resolver `Shipment.jobs`,
the entry point `Shipment.Send` and the dispatch engine `Shipment.send`) together
with the data types of `http/api/provider.go` it carries around, of the
collaborators `storage/storage.go` and `http/request/request.go`, of the handler
`http/handler/shipping.go` with `http/response/response.go`, and of the
transformers `provider/a` and `provider/b`.

Modelling conventions.

* A Go slice that may be nil is an `Option (List _)`: `none` is the nil slice and
  `some []` the empty, non-nil one.
* A Go `error` is an `Option GoError`: `none` is the nil error.
* `float64` fields are carried as exact rationals, `int` fields as integers.
* The collaborators behind the `Client` and `Storage` interfaces are functions
  that also receive the position of the calling unit in the job set, so they are
  free to answer every call differently.
* The goroutines of `send` run in no fixed order.  `send` therefore takes the
  completion order as an extra argument `σ`: the positions of the units in the
  order in which they finish.  A run of the Go code corresponds to a `σ` that is
  a permutation of `List.range jobs.length`.
* The logger has no influence on any returned value and is left out.
-/

namespace Axiogate

/-- Go `[]byte`; `none` is the nil slice. -/
abbrev Bytes := Option (List Nat)

/-- Go `context.Context`, known only by its identity. -/
abbrev Context := Nat

namespace api

/-- Go struct `api.Weight`. -/
structure Weight where
  Value : ℚ
  Unit : String
deriving DecidableEq

/-- Go struct `api.Contact`. -/
structure Contact where
  Name : String
  CompanyName : String
  Email : String
  Phone : String
  Mobile : String
deriving DecidableEq

/-- Go struct `api.Address`. -/
structure Address where
  Line1 : String
  Line2 : String
  City : String
  State : String
  CountryCode : String
  ZipCode : String
deriving DecidableEq

/-- Go struct `api.Party`. -/
structure Party where
  Contact : Contact
  Address : Address
  Reference : String
deriving DecidableEq

/-- Go struct `api.Dimensions`. -/
structure Dimensions where
  Length : ℚ
  Width : ℚ
  Height : ℚ
  Unit : String
deriving DecidableEq

/-- Go struct `api.Package`. -/
structure Package where
  Dimensions : Dimensions
  Weight : ℚ
  Quantity : Int
  Value : ℚ
deriving DecidableEq

/-- Go struct `api.CustomsItem`. -/
structure CustomsItem where
  Description : String
  HSCode : String
  Quantity : Int
  Weight : ℚ
  Value : ℚ
  CountryOfOrigin : String
deriving DecidableEq

/-- Go struct `api.Money`. -/
structure Money where
  Amount : ℚ
  Currency : String
deriving DecidableEq

/-- Go struct `api.ShippingRequest`; `CODAmount` is a pointer, `none` when nil. -/
structure ShippingRequest where
  Weight : Weight
  Shipper : Party
  Consignee : Party
  Dimensions : Dimensions
  Packages : List Package
  CustomsItems : List CustomsItem
  DeclaredValue : Money
  ServiceType : String
  SpecialNotes : String
  IsCOD : Bool
  CODAmount : Option Money
deriving DecidableEq

/-- Go struct `api.ShippingResponse`: the outcome of one job. -/
structure ShippingResponse where
  Endpoint : String
  RawResponse : Bytes
  Error : String
deriving DecidableEq

end api

/-- The non-nil Go `error` values that flow through the dispatcher: the
resolver's `*ErrProviderUnsupported`; an error that wraps another one, with the
text its `Error()` method returns and the error its `Unwrap()` method returns;
and any other error, known by the text its `Error()` method returns. -/
inductive GoError where
  | ErrProviderUnsupported (Provider : String)
  | other (msg : String)
  | wrapped (msg : String) (inner : GoError)
deriving DecidableEq

/-- The `Error()` method; for `*ErrProviderUnsupported` it is
`fmt.Sprintf("unsupported provider %s", e.Provider)`. -/
def GoError.Error : GoError → String
  | .ErrProviderUnsupported p => "unsupported provider " ++ p
  | .other msg => msg
  | .wrapped msg _ => msg

/-- A value implementing the `Payloader` interface: `Payload(req)` and `To()`.
The request is passed as the pointer it is in Go (`none` for nil). -/
structure Payloader where
  Payload : Option api.ShippingRequest → Bytes
  To : String

/-- Go struct `job`; `payloader` is `none` for a nil interface value. -/
structure job where
  payloader : Option Payloader
  provider : String

/-- A Go `map[string]Payloader`: its entries, listed in the order in which a
`range` statement visits them, with pairwise distinct keys. -/
structure Registry where
  entries : List (String × Option Payloader)
  nodup : (entries.map Prod.fst).Nodup

/-- The two-valued map index `val, ok := m[key]`: `none` when `ok` is false. -/
def Registry.lookup (m : Registry) (key : String) : Option (Option Payloader) :=
  m.entries.lookup key

/-- The one-valued map index `m[key]`: the nil interface for a missing key. -/
def Registry.get (m : Registry) (key : String) : Option Payloader :=
  (m.lookup key).getD none

/-- Whether `key` is a key of the map. -/
def Registry.contains (m : Registry) (key : String) : Bool :=
  (m.lookup key).isSome

/-- The builtin `len(m)`. -/
def Registry.len (m : Registry) : Nat :=
  m.entries.length

/-- Go struct `Shipment`.  `client` stands for `Client.Do` and `storage` for
`Storage.Save`; the first argument of both is the position of the calling unit
in the job set. -/
structure Shipment where
  providers : Registry
  storage : Nat → Context → String → Bytes → Option GoError
  client : Nat → Context → String → Bytes → Bytes × Option GoError

/-- One call made to a collaborator, tagged with the position of the unit that
made it. -/
inductive Call where
  | Payload (unit : Nat) (provider : String) (req : Option api.ShippingRequest)
  | Do (unit : Nat) (ctx : Context) (dest : String) (payload : Bytes)
  | Save (unit : Nat) (ctx : Context) (provider : String) (payload : Bytes)
deriving DecidableEq

/-- What a function with results `([]T, error)` returns, together with the
calls it made to the collaborators. -/
structure Result (α : Type) where
  val : Option (List α)
  err : Option GoError
  trace : List Call

/-- `Shipment.allJobs`: one job per map entry, in iteration order. -/
def Shipment.allJobs (s : Shipment) : List job :=
  s.providers.entries.map (fun e => { provider := e.1, payloader := e.2 })

/-- The `for _, provider := range providers` loop of `Shipment.jobs`, started
with the jobs appended so far. -/
def Shipment.jobsLoop (s : Shipment) : List String → List job → Option (List job) × Option GoError
  | [], jobs => (some jobs, none)
  | provider :: rest, jobs =>
    match s.providers.lookup provider with
    | none => (none, some (.ErrProviderUnsupported provider))
    | some val => s.jobsLoop rest (jobs ++ [{ provider := provider, payloader := val }])

/-- `Shipment.jobs`. -/
def Shipment.jobs (s : Shipment) (providers : List String) : Option (List job) × Option GoError :=
  if providers.length = 0 then (some s.allJobs, none)
  else s.jobsLoop providers []

/-- The body of the goroutine that `send` starts for the job at position `i`:
the outcome it puts on the channel (`none` when it returns without sending) and
the calls it makes. -/
def Shipment.unit (s : Shipment) (ctx : Context) (req : Option api.ShippingRequest)
    (i : Nat) (j : job) : Option api.ShippingResponse × List Call :=
  match j.payloader with
  | none => (none, [])
  | some p =>
    let payload := p.Payload req
    let r := s.client i ctx p.To payload
    match r.2 with
    | some err =>
      (some { Endpoint := p.To, RawResponse := r.1, Error := err.Error },
        [.Payload i j.provider req, .Do i ctx p.To payload])
    | none =>
      match s.storage i ctx j.provider r.1 with
      | some err =>
        (some { Endpoint := p.To, RawResponse := r.1, Error := err.Error },
          [.Payload i j.provider req, .Do i ctx p.To payload, .Save i ctx j.provider r.1])
      | none =>
        (some { Endpoint := p.To, RawResponse := r.1, Error := "" },
          [.Payload i j.provider req, .Do i ctx p.To payload, .Save i ctx j.provider r.1])

/-- All units of one dispatch, in job order. -/
def Shipment.units (s : Shipment) (ctx : Context) (jobs : List job)
    (req : Option api.ShippingRequest) : List (Option api.ShippingResponse × List Call) :=
  jobs.mapIdx (fun i j => s.unit ctx req i j)

/-- `Shipment.send`.  `σ` lists the positions of the units in the order in
which they finish; the channel is read after the join, so the responses are the
emitted outcomes in that order.  The trace lists the calls unit by unit. -/
def Shipment.send (s : Shipment) (σ : List Nat) (ctx : Context) (jobs : List job)
    (req : Option api.ShippingRequest) : Result api.ShippingResponse :=
  let finished := σ.filterMap (fun i => (s.units ctx jobs req)[i]?)
  { val := some (finished.filterMap (fun u => u.1))
    err := none
    trace := (finished.map (fun u => u.2)).flatten }

/-- `Shipment.Send`. -/
def Shipment.Send (s : Shipment) (σ : List Nat) (ctx : Context) (providers : List String)
    (req : Option api.ShippingRequest) : Result api.ShippingResponse :=
  match s.jobs providers with
  | (_, some err) => { val := none, err := some err, trace := [] }
  | (jobs, none) => s.send σ ctx (jobs.getD []) req

/-- The position of the unit that made a call. -/
def Call.unitOf : Call → Nat
  | .Payload i _ _ => i
  | .Do i _ _ _ => i
  | .Save i _ _ _ => i

/-- Whether a call is a call to `Storage.Save`. -/
def Call.isSave : Call → Bool
  | .Save _ _ _ _ => true
  | _ => false

/-- The context a call to `Client.Do` or `Storage.Save` was given; a `Payload`
call takes none. -/
def Call.ctx? : Call → Option Context
  | .Payload _ _ _ => none
  | .Do _ ctx _ _ => some ctx
  | .Save _ ctx _ _ => some ctx

/-! ## `storage/storage.go` -/

namespace storage

/-- Go struct `Storage`.  `db` stands for the error result of
`r.db.Exec(ctx, query, provider, payload)`. -/
structure Storage where
  db : Context → String → String → Bytes → Option GoError

/-- `Storage.Save`: a failing insert is wrapped by
`fmt.Errorf("failed to save shipment, %w", err)`. -/
def Storage.Save (r : Storage) (ctx : Context) (provider : String) (payload : Bytes) :
    Option GoError :=
  match r.db ctx "INSERT INTO shipment (provider, payload) VALUES ($1, $2)" provider payload with
  | some err => some (.wrapped ("failed to save shipment, " ++ err.Error) err)
  | none => none

end storage

/-! ## `http/request/request.go` -/

namespace request

/-- The character that `encoding/base64` (standard alphabet) writes for a
six-bit value. -/
def base64Char (n : Nat) : Nat :=
  if n < 26 then 65 + n
  else if n < 52 then 97 + (n - 26)
  else if n < 62 then 48 + (n - 52)
  else if n = 62 then 43
  else 47

/-- Standard base64 with `=` padding, as `base64.StdEncoding` produces it. -/
def base64 : List Nat → List Nat
  | [] => []
  | [a] => [base64Char (a / 4), base64Char (a % 4 * 16), 61, 61]
  | [a, b] => [base64Char (a / 4), base64Char (a % 4 * 16 + b / 16), base64Char (b % 16 * 4), 61]
  | a :: b :: c :: rest =>
    base64Char (a / 4) :: base64Char (a % 4 * 16 + b / 16) ::
      base64Char (b % 16 * 4 + c / 64) :: base64Char (c % 64) :: base64 rest

/-- `json.Marshal` applied to a value of type `[]byte`: a nil slice encodes as
`null`, any other as a JSON string holding the base64 text of the bytes; the
call never fails. -/
def jsonMarshalBytes : Bytes → List Nat × Option GoError
  | none => ([110, 117, 108, 108], none)
  | some b => (34 :: base64 b ++ [34], none)

/-- The `*http.Request` that `Client.Do` builds. -/
structure Request where
  ctx : Context
  method : String
  url : String
  body : List Nat
  contentType : String
deriving DecidableEq

/-- The `*http.Response` as far as `Client.Do` reads it: the status code and
what `io.ReadAll(resp.Body)` gives. -/
structure Response where
  StatusCode : Nat
  Body : Except GoError (List Nat)

/-- Go struct `Client` with the library calls it depends on:
`newRequestErr` is the error of `http.NewRequestWithContext` for a context,
method and URL (`none` when the request is built), `cli` is `c.cli.Do`. -/
structure Client where
  newRequestErr : Context → String → String → Option GoError
  cli : Request → Except GoError Response

/-- Lines 20 to 29 of `Client.Do`: marshal the payload and build the request. -/
def Client.newRequest (c : Client) (ctx : Context) (dest : String) (payload : Bytes) :
    Except GoError Request :=
  match jsonMarshalBytes payload with
  | (_, some err) => .error err
  | (data, none) =>
    match c.newRequestErr ctx "POST" dest with
    | some err => .error err
    | none =>
      .ok { ctx := ctx, method := "POST", url := dest, body := data,
            contentType := "application/json" }

/-- `Client.Do`, called by `Shipment.send` with a `[]byte` payload. -/
def Client.Do (c : Client) (ctx : Context) (dest : String) (payload : Bytes) :
    Bytes × Option GoError :=
  match c.newRequest ctx dest payload with
  | .error err => (none, some err)
  | .ok req =>
    match c.cli req with
    | .error err => (none, some err)
    | .ok resp =>
      match resp.Body with
      | .error err => (none, some err)
      | .ok b => (some b, none)

end request

/-! ## `http/response/response.go` -/

namespace response

/-- The values the handler passes as `payload`: a `*response.Error` and a
`*api.ShippingResponses`. -/
inductive Payload where
  | Error (msg : String)
  | ShippingResponses (Responses : Option (List api.ShippingResponse))
deriving DecidableEq

/-- How `json.Encoder.Encode` writes a field of type `json.RawMessage`: a nil
value is written as `null`; any other value is the output of `MarshalJSON`,
the bytes themselves, which the encoder compacts and rejects when they are not
valid JSON.  `compact` is that library step. -/
def encodeRawMessage (compact : List Nat → Except GoError (List Nat)) :
    Bytes → Except GoError (List Nat)
  | none => .ok [110, 117, 108, 108]
  | some b =>
    match compact b with
    | .ok out => .ok out
    | .error err =>
      .error (.other ("json: error calling MarshalJSON for type json.RawMessage: " ++ err.Error))

/-- The first error among the results of encoding the elements of a slice. -/
def firstError {α : Type} : List (Except GoError α) → Option GoError
  | [] => none
  | .error err :: _ => some err
  | .ok _ :: rest => firstError rest

/-- The error of `json.NewEncoder(r.w).Encode(payload)` for the payloads the
handler writes, on a writable connection.  The string fields always encode;
only a `RawResponse` can be refused. -/
def encodeErr (compact : List Nat → Except GoError (List Nat)) :
    Payload → Option GoError
  | .Error _ => none
  | .ShippingResponses resp =>
    firstError ((resp.getD []).map (fun r => encodeRawMessage compact r.RawResponse))

/-- `Response.write`: the value it panics with, `none` when it returns. -/
def write (compact : List Nat → Except GoError (List Nat)) (payload : Payload) :
    Option GoError :=
  match encodeErr compact payload with
  | some err => some err
  | none => none

/-- What a method of `Response` leaves behind: the status code it gave to
`WriteHeader`, the payload it gave to `write`, and the value `write` panicked
with.  When `panic` is `none` the body of the response is the JSON text of
`payload`; otherwise the encoder wrote nothing and the response has no body. -/
structure Reply where
  status : Nat
  payload : Payload
  panic : Option GoError
deriving DecidableEq

/-- `Response.BadRequest`: `WriteHeader(400)`, then `write(&Error{message})`. -/
def BadRequest (compact : List Nat → Except GoError (List Nat)) (message : String) : Reply :=
  { status := 400, payload := .Error message, panic := write compact (.Error message) }

/-- `Response.InternalServer`: `WriteHeader(500)`, then
`write(&Error{message})`. -/
def InternalServer (compact : List Nat → Except GoError (List Nat)) (message : String) :
    Reply :=
  { status := 500, payload := .Error message, panic := write compact (.Error message) }

/-- `Response.Created`, for the payload
`&api.ShippingResponses{Responses: resp}`: `WriteHeader(201)`, then
`write(payload)`. -/
def Created (compact : List Nat → Except GoError (List Nat))
    (resp : Option (List api.ShippingResponse)) : Reply :=
  { status := 201, payload := .ShippingResponses resp,
    panic := write compact (.ShippingResponses resp) }

end response

/-! ## `http/handler/shipping.go` -/

namespace handler

/-- A `url.Values`: the query parameters with the values of each key. -/
abbrev Values := List (String × List String)

/-- The `Sender` interface: `Send(ctx, providers, req)`. -/
abbrev Sender :=
  Context → Option (List String) → Option api.ShippingRequest →
    Option (List api.ShippingResponse) × Option GoError

/-- Go struct `handler.Shipment`, without its logger. -/
structure Shipment where
  sender : Sender

/-- The incoming `*http.Request` as far as the handler reads it: the result of
decoding the body into a `ShippingRequest` (`none` when decoding fails), the
parsed query (`none` for a nil map) and the request context. -/
structure Request where
  body : Option api.ShippingRequest
  query : Option Values
  ctx : Context

/-- `Shipment.providerList`. -/
def Shipment.providerList (_s : Shipment) (values : Option Values) : Option (List String) :=
  match values with
  | none => none
  | some values =>
    match values.lookup "providers" with
    | none => none
    | some providers =>
      some (providers.foldl (fun out p => if p = "" then out else out ++ [p]) [])

/-- The `errors.As(err, &target)` test for `*ErrProviderUnsupported`: the first
error of that type on the chain of `err` and the errors it wraps. -/
def asErrProviderUnsupported : GoError → Option GoError
  | .ErrProviderUnsupported p => some (.ErrProviderUnsupported p)
  | .other _ => none
  | .wrapped _ inner => asErrProviderUnsupported inner

/-- `Shipment.CreateShipping`; `compact` is the library step of the JSON
encoder that `Response.write` depends on. -/
def Shipment.CreateShipping (compact : List Nat → Except GoError (List Nat)) (s : Shipment)
    (r : Request) : response.Reply :=
  match r.body with
  | none => response.BadRequest compact "invalid body used, please consult the api"
  | some req =>
    let providers := s.providerList r.query
    match s.sender r.ctx providers (some req) with
    | (_, some err) =>
      match asErrProviderUnsupported err with
      | some target => response.BadRequest compact target.Error
      | none => response.InternalServer compact "shipment failed"
    | (resp, none) => response.Created compact resp

end handler

/-- The service of `shipment.New` seen through the `Sender` interface, for a
dispatch whose units finish in the order `σ`. -/
def Shipment.asSender (s : Shipment) (σ : List Nat) : handler.Sender :=
  fun ctx providers req =>
    ((s.Send σ ctx (providers.getD []) req).val, (s.Send σ ctx (providers.getD []) req).err)


/-- The text `fmt.Sprintf("%.2f", x)` gives for a finite value: the value
rounded to the nearest hundredth, ties to even, with two decimals. -/
def sprintf2f (x : ℚ) : String :=
  let y := |x| * 100
  let fl := y.floor.toNat
  let n :=
    if y - fl < 1 / 2 then fl
    else if 1 / 2 < y - fl then fl + 1
    else if fl % 2 = 0 then fl
    else fl + 1
  (if x < 0 then "-" else "") ++ toString (n / 100) ++ "." ++
    (if n % 100 < 10 then "0" else "") ++ toString (n % 100)

/-! ## `provider/a/provider.go` and `provider/b/provider.go`

The transformers build a provider request and hand it to `json.Marshal`, whose
error they drop.  The struct they build is modelled field by field; pointer
dereferences and slice indexing can panic and are written as such.
`json.Marshal` and `fmt.Sprintf("%.2f", _)` are library functions and enter as
arguments. -/

/-- A run-time panic of the Go code. -/
inductive Panic where
  | nilDereference
  | indexOutOfRange
deriving DecidableEq

/-- Reading through a pointer. -/
def deref {α : Type} : Option α → Except Panic α
  | none => .error .nilDereference
  | some a => .ok a

/-- The index expression `xs[i]`. -/
def index {α : Type} (xs : List α) (i : Nat) : Except Panic α :=
  match xs[i]? with
  | none => .error .indexOutOfRange
  | some a => .ok a

namespace a

/-- Go struct `WeightA`. -/
structure WeightA where
  Value : ℚ
  Unit : String
deriving DecidableEq

/-- Go struct `ContactA`. -/
structure ContactA where
  Name : String
  MobileNumber : String
  PhoneNumber : String
  EmailAddress : String
  CompanyName : String
deriving DecidableEq

/-- Go struct `AddressA`. -/
structure AddressA where
  Line1 : String
  City : String
  CountryCode : String
  ZipCode : String
deriving DecidableEq

/-- Go struct `PartyA`. -/
structure PartyA where
  Contact : ContactA
  Address : AddressA
  ReferenceNo1 : String
deriving DecidableEq

/-- Go struct `DimensionsA`. -/
structure DimensionsA where
  Length : ℚ
  Height : ℚ
  Width : ℚ
  Unit : String
deriving DecidableEq

/-- Go struct `AccountA`. -/
structure AccountA where
  Number : Int
deriving DecidableEq

/-- Go struct `CustomsDeclarationA`. -/
structure CustomsDeclarationA where
  Reference : String
  Description : String
  CountryOfOrigin : String
  Weight : ℚ
  Dimensions : DimensionsA
  Quantity : Int
  HsCode : String
  Value : ℚ
deriving DecidableEq

/-- Go struct `MoneyA`. -/
structure MoneyA where
  Amount : ℚ
  Currency : String
deriving DecidableEq

/-- Go struct `ProviderARequest`. -/
structure ProviderARequest where
  Weight : WeightA
  Shipper : PartyA
  Consignee : PartyA
  Dimensions : DimensionsA
  Account : AccountA
  ProductCode : String
  ServiceType : String
  PrintType : String
  IsInsured : Bool
  CustomsDeclarations : List CustomsDeclarationA
  DeclaredValue : MoneyA
  NumberOfPieces : Int
  ReferenceNumber1 : String
  SpecialNotes : String
  Remarks : String
  DeliveryType : String
  ContentType : String
  IsCod : Bool
deriving DecidableEq

/-- The constant `Provider`. -/
def Provider : String := "http://localhost:3030/v1/a"

/-- The method `To` of `provider`. -/
def To (p : String) : String := p

/-- The `PartyA` built from a canonical party. -/
def party (x : api.Party) : PartyA :=
  { Contact :=
      { Name := x.Contact.Name
        MobileNumber := x.Contact.Mobile
        PhoneNumber := x.Contact.Phone
        EmailAddress := x.Contact.Email
        CompanyName := x.Contact.CompanyName }
    Address :=
      { Line1 := x.Address.Line1
        City := x.Address.City
        CountryCode := x.Address.CountryCode
        ZipCode := x.Address.ZipCode }
    ReferenceNo1 := x.Reference }

/-- The `&ProviderARequest{...}` that `Payload` marshals. -/
def request (req : Option api.ShippingRequest) : Except Panic ProviderARequest := do
  let req ← deref req
  let customs := req.CustomsItems.mapIdx (fun i item =>
    ({ Reference := "Item-" ++ toString (i + 1)
       Description := item.Description
       CountryOfOrigin := item.CountryOfOrigin
       Weight := item.Weight
       Dimensions :=
         { Length := req.Dimensions.Length
           Width := req.Dimensions.Width
           Height := req.Dimensions.Height
           Unit := req.Dimensions.Unit }
       Quantity := item.Quantity
       HsCode := item.HSCode
       Value := item.Value } : CustomsDeclarationA))
  pure
    { Weight := { Value := req.Weight.Value, Unit := req.Weight.Unit }
      Shipper := party req.Shipper
      Consignee := party req.Consignee
      Dimensions :=
        { Length := req.Dimensions.Length
          Width := req.Dimensions.Width
          Height := req.Dimensions.Height
          Unit := req.Dimensions.Unit }
      Account := { Number := 123 }
      ProductCode := "International"
      ServiceType := req.ServiceType
      PrintType := "AWBOnly"
      IsInsured := true
      CustomsDeclarations := customs
      DeclaredValue := { Amount := req.DeclaredValue.Amount, Currency := req.DeclaredValue.Currency }
      NumberOfPieces := req.Packages.length
      ReferenceNumber1 := ""
      SpecialNotes := req.SpecialNotes
      Remarks := ""
      DeliveryType := "DoorToDoor"
      ContentType := "NonDocument"
      IsCod := req.IsCOD }

/-- The method `Payload` of `provider`; `marshal` is `json.Marshal` on
`*ProviderARequest`, its error dropped. -/
def Payload (marshal : ProviderARequest → Bytes) (req : Option api.ShippingRequest) :
    Except Panic Bytes := do
  let r ← request req
  pure (marshal r)

end a

namespace b

/-- Go struct `PackageRequestB`. -/
structure PackageRequestB where
  DimWidth : ℚ
  DimHeight : ℚ
  DimLength : ℚ
  DimWeight : ℚ
  NoofPeices : Int
  ShipmentValue : ℚ
deriving DecidableEq

/-- Go struct `ExportItemDeclarationB`. -/
structure ExportItemDeclarationB where
  HSNCODE : String
  ItemDesc : String
  DimWeight : ℚ
  NoofPeices : Int
  ShipmentValue : ℚ
  CountryofOrigin : String
deriving DecidableEq

/-- Go struct `ProviderBRequest`. -/
structure ProviderBRequest where
  Origin : String
  Destination : String
  ProductType : String
  ServiceType : String
  CODAmount : String
  CODCurrency : String
  SpecialInstruction : String
  Shipper : String
  ShipperCPErson : String
  ShipperAddress1 : String
  ShipperAddress2 : String
  ShipperCity : String
  ShipperEmail : String
  ShipperPhone : String
  ShipperMobile : String
  ShipperRefNo : String
  Consignee : String
  ConsigneeCPerson : String
  ConsigneeAddress1 : String
  ConsigneeAddress2 : String
  ConsigneeCity : String
  ConsigneePhone : String
  ConsigneeMob : String
  ConsigneeEmail : String
  ConsigneeState : String
  ConsigneeZipCode : String
  ValueOfShipment : ℚ
  ValueCurrency : String
  GoodsDescription : String
  NumberofPeices : Int
  Weight : ℚ
  PackageRequest : List PackageRequestB
  ExportItemDeclarationRequest : List ExportItemDeclarationB
  UserName : String
  Password : String
  AccountNo : String
deriving DecidableEq

/-- The constant `Provider`. -/
def Provider : String := "http://localhost:3031/v1/b"

/-- The method `To` of `provider`. -/
def To (p : String) : String := p

/-- The `&ProviderBRequest{...}` that `Payload` marshals; `sprintf2f` is
`fmt.Sprintf("%.2f", _)`. -/
def request (sprintf2f : ℚ → String) (req : Option api.ShippingRequest) :
    Except Panic ProviderBRequest := do
  let req ← deref req
  let packages := req.Packages.map (fun pkg =>
    ({ DimWidth := pkg.Dimensions.Width
       DimHeight := pkg.Dimensions.Height
       DimLength := pkg.Dimensions.Length
       DimWeight := pkg.Weight
       NoofPeices := pkg.Quantity
       ShipmentValue := pkg.Value } : PackageRequestB))
  let items := req.CustomsItems.map (fun item =>
    ({ HSNCODE := item.HSCode
       ItemDesc := item.Description
       DimWeight := item.Weight
       NoofPeices := item.Quantity
       ShipmentValue := item.Value
       CountryofOrigin := item.CountryOfOrigin } : ExportItemDeclarationB))
  let cod ←
    if req.IsCOD && req.CODAmount.isSome then do
      let amount ← deref req.CODAmount
      pure (sprintf2f amount.Amount, amount.Currency)
    else pure ("0", "USD")
  let goodsDescription ←
    if req.CustomsItems.length != 0 then do
      let first ← index req.CustomsItems 0
      pure first.Description
    else pure ""
  pure
    { Origin := req.Shipper.Address.CountryCode
      Destination := req.Consignee.Address.CountryCode
      ProductType := "XPS"
      ServiceType := req.ServiceType
      CODAmount := cod.1
      CODCurrency := cod.2
      SpecialInstruction := req.SpecialNotes
      Shipper := req.Shipper.Contact.CompanyName
      ShipperCPErson := req.Shipper.Contact.Name
      ShipperAddress1 := req.Shipper.Address.Line1
      ShipperAddress2 := req.Shipper.Address.Line2
      ShipperCity := req.Shipper.Address.City
      ShipperEmail := req.Shipper.Contact.Email
      ShipperPhone := req.Shipper.Contact.Phone
      ShipperMobile := req.Shipper.Contact.Mobile
      ShipperRefNo := req.Shipper.Reference
      Consignee := req.Consignee.Contact.CompanyName
      ConsigneeCPerson := req.Consignee.Contact.Name
      ConsigneeAddress1 := req.Consignee.Address.Line1
      ConsigneeAddress2 := req.Consignee.Address.Line2
      ConsigneeCity := req.Consignee.Address.City
      ConsigneePhone := req.Consignee.Contact.Phone
      ConsigneeMob := req.Consignee.Contact.Mobile
      ConsigneeEmail := req.Consignee.Contact.Email
      ConsigneeState := req.Consignee.Address.State
      ConsigneeZipCode := req.Consignee.Address.ZipCode
      ValueOfShipment := req.DeclaredValue.Amount
      ValueCurrency := req.DeclaredValue.Currency
      GoodsDescription := goodsDescription
      NumberofPeices := req.Packages.length
      Weight := req.Weight.Value / 1000
      PackageRequest := packages
      ExportItemDeclarationRequest := items
      UserName := "123"
      Password := "123"
      AccountNo := "123" }

/-- The method `Payload` of `provider`; `marshal` is `json.Marshal` on
`*ProviderBRequest`, its error dropped. -/
def Payload (marshal : ProviderBRequest → Bytes) (sprintf2f : ℚ → String)
    (req : Option api.ShippingRequest) : Except Panic Bytes := do
  let r ← request sprintf2f req
  pure (marshal r)

end b

/-! ## Concrete values used to instantiate the theorems -/

/-- A provider capability that always produces the one-byte payload `[1]`. -/
def providerX : Payloader :=
  { Payload := fun _ => some [1], To := "https://x.example.com" }

/-- The registry `{"x": providerX}`. -/
def registryX : Registry :=
  ⟨[("x", some providerX)], by decide⟩

/-- The registry `{"provider1": providerX, "provider2": nil}`. -/
def registryNil : Registry :=
  ⟨[("provider1", some providerX), ("provider2", none)], by decide⟩

/-- A service over `registryX` whose transport echoes the payload and whose
persistence always succeeds. -/
def shipmentX : Shipment :=
  { providers := registryX
    storage := fun _ _ _ _ => none
    client := fun _ _ _ b => (b, none) }

/-- A service over `registryNil` with the same collaborators as `shipmentX`. -/
def shipmentNil : Shipment :=
  { shipmentX with providers := registryNil }

/-- A service over `registryX` whose transport fails with a diagnostic body. -/
def shipmentDown : Shipment :=
  { shipmentX with client := fun _ _ _ _ => (some [7], some (.other "network timeout")) }

/-- A service over `registryX` whose persistence fails. -/
def shipmentNoDb : Shipment :=
  { shipmentX with storage := fun _ _ _ _ => some (.other "database connection failed") }

/-- A provider capability with the destination `https://<name>.example.com`. -/
def providerNamed (name : String) : Payloader :=
  { Payload := fun _ => some [1], To := "https://" ++ name ++ ".example.com" }

/-- Three jobs A, B, C with set capabilities. -/
def jobsABC : List job :=
  [{ provider := "provider1", payloader := some (providerNamed "provider1") },
    { provider := "provider2", payloader := some (providerNamed "provider2") },
    { provider := "provider3", payloader := some (providerNamed "provider3") }]

/-- A service where unit 0 succeeds, unit 1 fails at transport with
`client error` and unit 2 fails at persistence with `storage error`. -/
def shipmentMixed : Shipment :=
  { providers := registryX
    storage := fun i _ _ _ => if i = 2 then some (.other "storage error") else none
    client := fun i _ _ _ =>
      if i = 1 then (none, some (.other "client error")) else (some [i], none) }

/-- As `shipmentMixed`, but the transport call of unit 1 succeeds. -/
def shipmentMixedB : Shipment :=
  { shipmentMixed with
    client := fun i => if i = 1 then (fun _ _ _ => (some [9], none)) else shipmentMixed.client i }

/-- As `shipmentMixed`, but the transport error of unit 1 has an empty message
(`errors.New("")`). -/
def shipmentMixedMute : Shipment :=
  { shipmentMixed with
    client := fun i _ _ _ =>
      if i = 1 then (none, some (.other "")) else (some [i], none) }

/-- A service over `registryX` whose transport fails with an error whose
message is empty. -/
def shipmentMute : Shipment :=
  { shipmentX with client := fun _ _ _ _ => (none, some (.other "")) }

/-- A service over `registryX` whose persistence fails with the message
`network timeout`. -/
def shipmentDbTimeout : Shipment :=
  { shipmentX with storage := fun _ _ _ _ => some (.other "network timeout") }

/-- A database whose insert fails with `connection refused`. -/
def storageRefused : storage.Storage :=
  { db := fun _ _ _ _ => some (.other "connection refused") }

/-- A service over `registryX` that persists through `storageRefused`. -/
def shipmentRefused : Shipment :=
  { shipmentX with storage := fun _ => storageRefused.Save }

/-- A transport whose requests are always built and answered with status 200
and the body `ok`. -/
def clientOk : request.Client :=
  { newRequestErr := fun _ _ _ => none
    cli := fun _ => .ok { StatusCode := 200, Body := .ok [111, 107] } }

/-- The handler over `shipmentX`, for a dispatch whose units finish in job
order. -/
def handlerX : handler.Shipment :=
  { sender := shipmentX.asSender [0] }

/-- A request without packages and customs items, with empty strings
everywhere, marked cash-on-delivery but without an amount. -/
def requestEmpty : api.ShippingRequest :=
  { Weight := { Value := 0, Unit := "" }
    Shipper :=
      { Contact := { Name := "", CompanyName := "", Email := "", Phone := "", Mobile := "" }
        Address :=
          { Line1 := "", Line2 := "", City := "", State := "", CountryCode := "", ZipCode := "" }
        Reference := "" }
    Consignee :=
      { Contact := { Name := "", CompanyName := "", Email := "", Phone := "", Mobile := "" }
        Address :=
          { Line1 := "", Line2 := "", City := "", State := "", CountryCode := "", ZipCode := "" }
        Reference := "" }
    Dimensions := { Length := 0, Width := 0, Height := 0, Unit := "" }
    Packages := []
    CustomsItems := []
    DeclaredValue := { Amount := 0, Currency := "" }
    ServiceType := ""
    SpecialNotes := ""
    IsCOD := true
    CODAmount := none }

/-- A request of 10.5 KG, otherwise as `requestEmpty`. -/
def requestKG : api.ShippingRequest :=
  { requestEmpty with Weight := { Value := 21 / 2, Unit := "KG" } }

/-- A request that carries a cash-on-delivery amount although `IsCOD` is
false. -/
def requestNoCod : api.ShippingRequest :=
  { requestEmpty with IsCOD := false, CODAmount := some { Amount := 25 / 2, Currency := "EUR" } }

/-- A transport whose carrier answers every request with status 502 and an
empty body. -/
def clientEmptyBody : request.Client :=
  { newRequestErr := fun _ _ _ => none
    cli := fun _ => .ok { StatusCode := 502, Body := .ok [] } }

/-- A transport whose round trip fails. -/
def clientRefused : request.Client :=
  { newRequestErr := fun _ _ _ => none
    cli := fun _ => .error (.other "connection refused") }

/-- A service over `registryX` that sends through `clientEmptyBody`. -/
def shipmentEmptyBody : Shipment :=
  { shipmentX with client := fun _ => clientEmptyBody.Do }

/-- The handler over `shipmentEmptyBody`. -/
def handlerEmptyBody : handler.Shipment :=
  { sender := shipmentEmptyBody.asSender [0] }

/-- A compaction step that refuses exactly the empty input, with the error of
the encoder for it. -/
def compactNonEmpty (b : List Nat) : Except GoError (List Nat) :=
  if b = [] then .error (.other "unexpected end of JSON input") else .ok b

/-- A handler whose sender fails with an error that wraps
`&ErrProviderUnsupported{Provider: "y"}`. -/
def handlerWrapping : handler.Shipment :=
  { sender := fun _ _ _ =>
      (none, some (.wrapped "dispatch: unsupported provider y" (.ErrProviderUnsupported "y"))) }

/-! ## Job resolution -/

theorem jobsLoop_unsupported (s : Shipment) (pre post : List String) (name : String)
    (hpre : ∀ p ∈ pre, s.providers.contains p = true)
    (hname : s.providers.contains name = false) (acc : List job) :
    s.jobsLoop (pre ++ name :: post) acc = (none, some (.ErrProviderUnsupported name)) := by
  induction pre generalizing acc with
  | nil =>
    have h : s.providers.lookup name = none := by
      simpa [Registry.contains] using hname
    simp [Shipment.jobsLoop, h]
  | cons p ps ih =>
    have hp := hpre p (List.mem_cons_self p ps)
    obtain ⟨v, hv⟩ := Option.isSome_iff_exists.mp hp
    have hps : ∀ q ∈ ps, s.providers.contains q = true :=
      fun q hq => hpre q (List.mem_cons_of_mem p hq)
    simp only [List.cons_append, Shipment.jobsLoop, hv]
    exact ih hps _

theorem jobsLoop_registered (s : Shipment) (names : List String)
    (hall : ∀ n ∈ names, s.providers.contains n = true) (acc : List job) :
    s.jobsLoop names acc =
      (some (acc ++ names.map (fun n => { provider := n, payloader := s.providers.get n })),
        none) := by
  induction names generalizing acc with
  | nil => simp [Shipment.jobsLoop]
  | cons p ps ih =>
    have hp := hall p (List.mem_cons_self p ps)
    obtain ⟨v, hv⟩ := Option.isSome_iff_exists.mp hp
    have hps : ∀ q ∈ ps, s.providers.contains q = true :=
      fun q hq => hall q (List.mem_cons_of_mem p hq)
    have hget : s.providers.get p = v := by simp [Registry.get, hv]
    simp only [Shipment.jobsLoop, hv]
    rw [ih hps]
    simp [hget]

/-- Every list with an unregistered name splits at the first such name. -/
theorem split_first_unregistered (m : Registry) (names : List String)
    (h : ∃ n ∈ names, m.contains n = false) :
    ∃ pre name post, names = pre ++ name :: post ∧
      (∀ p ∈ pre, m.contains p = true) ∧ m.contains name = false := by
  induction names with
  | nil => obtain ⟨n, hn, _⟩ := h; cases hn
  | cons a as ih =>
    cases ha : m.contains a with
    | false => exact ⟨[], a, as, rfl, by simp, ha⟩
    | true =>
      obtain ⟨n, hn, hnc⟩ := h
      have hn2 : n ∈ as := by
        rcases List.mem_cons.mp hn with rfl | hn2
        · rw [ha] at hnc; cases hnc
        · exact hn2
      obtain ⟨pre, name, post, e, hpre, hname⟩ := ih ⟨n, hn2, hnc⟩
      refine ⟨a :: pre, name, post, by rw [e]; rfl, ?_, hname⟩
      intro p hp
      rcases List.mem_cons.mp hp with rfl | hp2
      · exact ha
      · exact hpre p hp2

theorem jobs_unsupported (s : Shipment) (pre post : List String) (name : String)
    (hpre : ∀ p ∈ pre, s.providers.contains p = true)
    (hname : s.providers.contains name = false) :
    s.jobs (pre ++ name :: post) = (none, some (.ErrProviderUnsupported name)) := by
  have hlen : ¬ (pre ++ name :: post).length = 0 := by simp
  rw [Shipment.jobs, if_neg hlen]
  exact jobsLoop_unsupported s pre post name hpre hname []

theorem jobs_registered (s : Shipment) (names : List String) (hne : names ≠ [])
    (hall : ∀ n ∈ names, s.providers.contains n = true) :
    s.jobs names =
      (some (names.map (fun n => { provider := n, payloader := s.providers.get n })), none) := by
  have hlen : ¬ names.length = 0 := by simpa using hne
  rw [Shipment.jobs, if_neg hlen, jobsLoop_registered s names hall []]
  simp

theorem Send_of_jobs_err (s : Shipment) (σ : List Nat) (ctx : Context) (providers : List String)
    (req : Option api.ShippingRequest) (js : Option (List job)) (e : GoError)
    (h : s.jobs providers = (js, some e)) :
    s.Send σ ctx providers req = { val := none, err := some e, trace := [] } := by
  simp [Shipment.Send, h]

theorem Send_of_jobs_ok (s : Shipment) (σ : List Nat) (ctx : Context) (providers : List String)
    (req : Option api.ShippingRequest) (js : List job)
    (h : s.jobs providers = (some js, none)) :
    s.Send σ ctx providers req = s.send σ ctx js req := by
  simp [Shipment.Send, h]

/-- Resolution either fails on an unregistered name or succeeds. -/
theorem jobs_cases (s : Shipment) (providers : List String) :
    (∃ n ∈ providers, s.providers.contains n = false) ∨
      ∃ js, s.jobs providers = (some js, none) := by
  by_cases h : ∃ n ∈ providers, s.providers.contains n = false
  · exact Or.inl h
  · right
    have hall : ∀ n ∈ providers, s.providers.contains n = true := by
      intro n hn
      cases hc : s.providers.contains n with
      | true => rfl
      | false => exact absurd ⟨n, hn, hc⟩ h
    cases providers with
    | nil => exact ⟨s.allJobs, by simp [Shipment.jobs]⟩
    | cons a as => exact ⟨_, jobs_registered s (a :: as) (by simp) hall⟩

/-! ## Claims about job resolution -/

/-- C1: when the requested names contain a name that is not a registry key, the
list splits at the first such name, `Shipment.jobs` returns a nil job set
together with `ErrProviderUnsupported` carrying exactly that name, and `Send`
returns the same error. -/
theorem C1_jobs_first_unregistered (s : Shipment) (providers : List String)
    (h : ∃ n ∈ providers, s.providers.contains n = false) :
    ∃ pre name post, providers = pre ++ name :: post ∧
      (∀ p ∈ pre, s.providers.contains p = true) ∧
      s.providers.contains name = false ∧
      s.jobs providers = (none, some (.ErrProviderUnsupported name)) ∧
      ∀ σ ctx req, (s.Send σ ctx providers req).err = some (.ErrProviderUnsupported name) := by
  obtain ⟨pre, name, post, e, hpre, hname⟩ := split_first_unregistered s.providers providers h
  subst e
  have hj := jobs_unsupported s pre post name hpre hname
  refine ⟨pre, name, post, rfl, hpre, hname, hj, ?_⟩
  intro σ ctx req
  rw [Send_of_jobs_err s σ ctx _ req _ _ hj]

theorem C1_jobs_first_unregistered_witness :
    (∃ n ∈ ["x", "y", "z"], shipmentX.providers.contains n = false) ∧
    ∃ pre name post, ["x", "y", "z"] = pre ++ name :: post ∧
      (∀ p ∈ pre, shipmentX.providers.contains p = true) ∧
      shipmentX.providers.contains name = false ∧
      shipmentX.jobs ["x", "y", "z"] = (none, some (.ErrProviderUnsupported name)) ∧
      ∀ σ ctx req,
        (shipmentX.Send σ ctx ["x", "y", "z"] req).err = some (.ErrProviderUnsupported name) :=
  ⟨⟨"y", by decide, by decide⟩,
    C1_jobs_first_unregistered shipmentX ["x", "y", "z"] ⟨"y", by decide, by decide⟩⟩

/-- C2: when the requested names contain a name that is not a registry key,
`Send` returns a nil response collection and a non-nil error, and its trace of
`Payload`, `Do` and `Save` calls is empty. -/
theorem C2_Send_unregistered_no_calls (s : Shipment) (σ : List Nat) (ctx : Context)
    (providers : List String) (req : Option api.ShippingRequest)
    (h : ∃ n ∈ providers, s.providers.contains n = false) :
    (s.Send σ ctx providers req).val = none ∧
      (s.Send σ ctx providers req).err ≠ none ∧
      (s.Send σ ctx providers req).trace = [] := by
  obtain ⟨pre, name, post, e, hpre, hname⟩ := split_first_unregistered s.providers providers h
  subst e
  rw [Send_of_jobs_err s σ ctx _ req _ _ (jobs_unsupported s pre post name hpre hname)]
  simp

theorem C2_Send_unregistered_no_calls_witness :
    (∃ n ∈ ["x", "y"], shipmentX.providers.contains n = false) ∧
    (shipmentX.Send [0, 1] 0 ["x", "y"] none).val = none ∧
      (shipmentX.Send [0, 1] 0 ["x", "y"] none).err ≠ none ∧
      (shipmentX.Send [0, 1] 0 ["x", "y"] none).trace = [] :=
  ⟨⟨"y", by decide, by decide⟩,
    C2_Send_unregistered_no_calls shipmentX [0, 1] 0 ["x", "y"] none
      ⟨"y", by decide, by decide⟩⟩

/-- In a list with pairwise distinct keys, `lookup` finds exactly the entries. -/
theorem lookup_eq_some_iff_mem {β : Type} (l : List (String × β))
    (hnd : (l.map Prod.fst).Nodup) (k : String) (v : β) :
    l.lookup k = some v ↔ (k, v) ∈ l := by
  induction l with
  | nil => simp
  | cons e es ih =>
    obtain ⟨k', v'⟩ := e
    have hnd2 : (es.map Prod.fst).Nodup := (List.nodup_cons.mp hnd).2
    have hnot : k' ∉ es.map Prod.fst := (List.nodup_cons.mp hnd).1
    by_cases hk : k = k'
    · subst hk
      have hno : ∀ w, (k, w) ∉ es := fun w hw => hnot (List.mem_map.mpr ⟨(k, w), hw, rfl⟩)
      simp only [List.lookup_cons_self, List.mem_cons, Prod.mk.injEq, true_and, Option.some.injEq]
      constructor
      · intro h; exact Or.inl h.symm
      · rintro (h | h)
        · exact h.symm
        · exact absurd h (hno v)
    · have hbeq : (k == k') = false := by simpa using hk
      rw [List.lookup_cons, hbeq]
      simp only [List.mem_cons, Prod.mk.injEq, hk, false_and, false_or]
      exact ih hnd2

/-- C3: with an empty requested-name list resolution succeeds; the job set has
as many jobs as the registry has entries, its (provider, capability) pairs are
the registry entries, no provider identifier occurs twice, and a pair is in the
job set exactly when the registry maps that key to that capability. -/
theorem C3_jobs_empty_is_whole_registry (s : Shipment) :
    ∃ js, s.jobs [] = (some js, none) ∧
      js.length = s.providers.len ∧
      js.map (fun j => (j.provider, j.payloader)) = s.providers.entries ∧
      (js.map (fun j => j.provider)).Nodup ∧
      ∀ key val, s.providers.lookup key = some val ↔
        ∃ j ∈ js, j.provider = key ∧ j.payloader = val := by
  refine ⟨s.allJobs, by simp [Shipment.jobs], by simp [Shipment.allJobs, Registry.len], ?_, ?_, ?_⟩
  · simp [Shipment.allJobs, Function.comp_def]
  · have h : s.allJobs.map (fun j => j.provider) = s.providers.entries.map Prod.fst := by
      simp [Shipment.allJobs, Function.comp_def]
    rw [h]
    exact s.providers.nodup
  · intro key val
    rw [Registry.lookup, lookup_eq_some_iff_mem _ s.providers.nodup]
    constructor
    · intro h
      exact ⟨{ provider := key, payloader := val },
        List.mem_map.mpr ⟨(key, val), h, rfl⟩, rfl, rfl⟩
    · rintro ⟨j, hj, rfl, rfl⟩
      obtain ⟨e, he, rfl⟩ := List.mem_map.mp hj
      exact he

/-- C4: for a non-empty requested-name list whose names are all registry keys,
`Shipment.jobs` succeeds with the jobs `{name, registry[name]}` in request
order: as many jobs as names, every name as often as it was requested
(duplicates kept, unnamed providers absent). -/
theorem C4_jobs_named_in_request_order (s : Shipment) (providers : List String)
    (hne : providers ≠ [])
    (hall : ∀ n ∈ providers, s.providers.contains n = true) :
    ∃ js, s.jobs providers = (some js, none) ∧
      js = providers.map (fun n => { provider := n, payloader := s.providers.get n }) ∧
      js.length = providers.length ∧
      js.map (fun j => j.provider) = providers ∧
      ∀ n, js.countP (fun j => j.provider == n) = providers.count n := by
  refine ⟨_, jobs_registered s providers hne hall, rfl, by simp, ?_, ?_⟩
  · simp [Function.comp_def]
  · intro n
    rw [List.countP_map, List.count]
    rfl

theorem C4_jobs_named_in_request_order_witness :
    (["provider1", "provider1"] ≠ [] ∧
      ∀ n ∈ ["provider1", "provider1"], shipmentNil.providers.contains n = true) ∧
    ∃ js, shipmentNil.jobs ["provider1", "provider1"] = (some js, none) ∧
      js = ["provider1", "provider1"].map
        (fun n => { provider := n, payloader := shipmentNil.providers.get n }) ∧
      js.length = ["provider1", "provider1"].length ∧
      js.map (fun j => j.provider) = ["provider1", "provider1"] ∧
      ∀ n, js.countP (fun j => j.provider == n) = ["provider1", "provider1"].count n :=
  ⟨⟨by decide, by decide⟩,
    C4_jobs_named_in_request_order shipmentNil ["provider1", "provider1"] (by decide)
      (by decide)⟩

/-- C5: `Send` returns a non-nil error exactly when the requested-name list is
non-empty and contains a name that is not a registry key, and `send` returns a
nil error for every job set, completion order and collaborator behaviour. -/
theorem C5_Send_err_iff_unregistered (s : Shipment) (σ : List Nat) (ctx : Context)
    (req : Option api.ShippingRequest) :
    (∀ providers, (s.Send σ ctx providers req).err ≠ none ↔
        (providers ≠ [] ∧ ∃ n ∈ providers, s.providers.contains n = false)) ∧
      ∀ jobs, (s.send σ ctx jobs req).err = none := by
  have hsend : ∀ jobs, (s.send σ ctx jobs req).err = none := fun _ => rfl
  refine ⟨?_, hsend⟩
  intro providers
  constructor
  · intro herr
    rcases jobs_cases s providers with h | ⟨js, hjs⟩
    · refine ⟨?_, h⟩
      rintro rfl
      obtain ⟨n, hn, _⟩ := h
      cases hn
    · rw [Send_of_jobs_ok s σ ctx providers req js hjs] at herr
      exact absurd (hsend js) herr
  · rintro ⟨_, h⟩
    obtain ⟨pre, name, post, e, hpre, hname⟩ := split_first_unregistered s.providers providers h
    subst e
    rw [Send_of_jobs_err s σ ctx _ req _ _ (jobs_unsupported s pre post name hpre hname)]
    simp

/-! ## The dispatch engine -/

/-- Reading a list at all its positions, in order, gives the list back. -/
theorem filterMap_range_getElem? {α : Type} (l : List α) :
    (List.range l.length).filterMap (fun i => l[i]?) = l := by
  induction l using List.reverseRecOn with
  | nil => rfl
  | append_singleton l a ih =>
    rw [List.length_append, List.length_singleton, List.range_succ, List.filterMap_append]
    have h1 : (List.range l.length).filterMap (fun i => (l ++ [a])[i]?) =
        (List.range l.length).filterMap (fun i => l[i]?) := by
      apply List.filterMap_congr
      intro i hi
      exact List.getElem?_append_left (List.mem_range.mp hi)
    rw [h1, ih]
    simp

/-- Whatever order the units finish in, the finished units are all the units. -/
theorem finished_perm {α : Type} (l : List α) (σ : List Nat)
    (hσ : σ.Perm (List.range l.length)) :
    (σ.filterMap (fun i => l[i]?)).Perm l := by
  have h := hσ.filterMap (fun i => l[i]?)
  rwa [filterMap_range_getElem?] at h

theorem length_units (s : Shipment) (ctx : Context) (jobs : List job)
    (req : Option api.ShippingRequest) : (s.units ctx jobs req).length = jobs.length := by
  simp [Shipment.units]

theorem getElem?_units (s : Shipment) (ctx : Context) (jobs : List job)
    (req : Option api.ShippingRequest) (i : Nat) :
    (s.units ctx jobs req)[i]? = (jobs[i]?).map (fun j => s.unit ctx req i j) := by
  simp [Shipment.units]

/-- The responses of `send` are, up to order, the outcomes the units emit. -/
theorem send_val_perm (s : Shipment) (σ : List Nat) (ctx : Context) (jobs : List job)
    (req : Option api.ShippingRequest) (hσ : σ.Perm (List.range jobs.length)) :
    ∃ out, (s.send σ ctx jobs req).val = some out ∧
      out.Perm ((s.units ctx jobs req).filterMap (fun u => u.1)) := by
  refine ⟨_, rfl, ?_⟩
  apply List.Perm.filterMap
  apply finished_perm
  rwa [length_units]

/-- Every call in the trace of `send` was made by the unit of some job. -/
theorem mem_send_trace (s : Shipment) (σ : List Nat) (ctx : Context) (jobs : List job)
    (req : Option api.ShippingRequest) (c : Call)
    (hc : c ∈ (s.send σ ctx jobs req).trace) :
    ∃ k j, jobs[k]? = some j ∧ c ∈ (s.unit ctx req k j).2 := by
  simp only [Shipment.send, List.mem_flatten, List.mem_map, List.mem_filterMap] at hc
  obtain ⟨l, ⟨u, ⟨k, _, hk⟩, rfl⟩, hcl⟩ := hc
  rw [getElem?_units] at hk
  cases hj : jobs[k]? with
  | none => rw [hj] at hk; cases hk
  | some j =>
    rw [hj] at hk
    simp only [Option.map_some', Option.some.injEq] at hk
    subst hk
    exact ⟨k, j, hj, hcl⟩

/-- A unit tags each of its calls with its own position. -/
theorem unitOf_of_mem_unit (s : Shipment) (ctx : Context) (req : Option api.ShippingRequest)
    (i : Nat) (j : job) (c : Call) (hc : c ∈ (s.unit ctx req i j).2) : c.unitOf = i := by
  unfold Shipment.unit at hc
  split at hc
  · cases hc
  · dsimp only at hc
    split at hc
    · simp only [List.mem_cons, List.mem_singleton, List.not_mem_nil, or_false] at hc
      rcases hc with rfl | rfl <;> rfl
    · split at hc <;>
      · simp only [List.mem_cons, List.mem_singleton, List.not_mem_nil, or_false] at hc
        rcases hc with rfl | rfl | rfl <;> rfl

/-- The outcome a unit emits is among the responses of `send`. -/
theorem mem_send_val (s : Shipment) (σ : List Nat) (ctx : Context) (jobs : List job)
    (req : Option api.ShippingRequest) (hσ : σ.Perm (List.range jobs.length))
    (i : Nat) (j : job) (r : api.ShippingResponse) (hj : jobs[i]? = some j)
    (hr : (s.unit ctx req i j).1 = some r) :
    ∃ out, (s.send σ ctx jobs req).val = some out ∧ r ∈ out := by
  obtain ⟨out, hout, hperm⟩ := send_val_perm s σ ctx jobs req hσ
  refine ⟨out, hout, hperm.mem_iff.mpr ?_⟩
  rw [List.mem_filterMap]
  refine ⟨s.unit ctx req i j, ?_, hr⟩
  rw [List.mem_iff_getElem?]
  exact ⟨i, by rw [getElem?_units, hj]; rfl⟩

/-- What a unit does when its capability is unset. -/
theorem unit_unset (s : Shipment) (ctx : Context) (req : Option api.ShippingRequest)
    (i : Nat) (j : job) (hp : j.payloader = none) : s.unit ctx req i j = (none, []) := by
  simp [Shipment.unit, hp]

/-- What a unit does when the transport call returns an error. -/
theorem unit_transport_error (s : Shipment) (ctx : Context) (req : Option api.ShippingRequest)
    (i : Nat) (j : job) (p : Payloader) (b : Bytes) (e : GoError)
    (hp : j.payloader = some p)
    (hdo : s.client i ctx p.To (p.Payload req) = (b, some e)) :
    s.unit ctx req i j =
      (some { Endpoint := p.To, RawResponse := b, Error := e.Error },
        [.Payload i j.provider req, .Do i ctx p.To (p.Payload req)]) := by
  simp [Shipment.unit, hp, hdo]

/-- What a unit does when transport succeeds and persistence fails. -/
theorem unit_storage_error (s : Shipment) (ctx : Context) (req : Option api.ShippingRequest)
    (i : Nat) (j : job) (p : Payloader) (b : Bytes) (e : GoError)
    (hp : j.payloader = some p)
    (hdo : s.client i ctx p.To (p.Payload req) = (b, none))
    (hsave : s.storage i ctx j.provider b = some e) :
    s.unit ctx req i j =
      (some { Endpoint := p.To, RawResponse := b, Error := e.Error },
        [.Payload i j.provider req, .Do i ctx p.To (p.Payload req),
          .Save i ctx j.provider b]) := by
  simp [Shipment.unit, hp, hdo, hsave]

/-- What a unit does when transport and persistence both succeed. -/
theorem unit_success (s : Shipment) (ctx : Context) (req : Option api.ShippingRequest)
    (i : Nat) (j : job) (p : Payloader) (b : Bytes)
    (hp : j.payloader = some p)
    (hdo : s.client i ctx p.To (p.Payload req) = (b, none))
    (hsave : s.storage i ctx j.provider b = none) :
    s.unit ctx req i j =
      (some { Endpoint := p.To, RawResponse := b, Error := "" },
        [.Payload i j.provider req, .Do i ctx p.To (p.Payload req),
          .Save i ctx j.provider b]) := by
  simp [Shipment.unit, hp, hdo, hsave]

/-- A unit emits an outcome exactly when its capability is set. -/
theorem unit_isSome (s : Shipment) (ctx : Context) (req : Option api.ShippingRequest)
    (i : Nat) (j : job) : (s.unit ctx req i j).1.isSome = j.payloader.isSome := by
  cases hp : j.payloader with
  | none => rw [unit_unset s ctx req i j hp]; rfl
  | some p =>
    cases hdo : s.client i ctx p.To (p.Payload req) with
    | mk b e =>
      cases e with
      | some e => rw [unit_transport_error s ctx req i j p b e hp hdo]; rfl
      | none =>
        cases hsave : s.storage i ctx j.provider b with
        | some e => rw [unit_storage_error s ctx req i j p b e hp hdo hsave]; rfl
        | none => rw [unit_success s ctx req i j p b hp hdo hsave]; rfl

/-- The number of responses of `send` is the number of jobs with a set
capability. -/
theorem send_val_length (s : Shipment) (σ : List Nat) (ctx : Context) (jobs : List job)
    (req : Option api.ShippingRequest) (hσ : σ.Perm (List.range jobs.length)) :
    ∃ out, (s.send σ ctx jobs req).val = some out ∧
      out.length = jobs.countP (fun j => j.payloader.isSome) := by
  obtain ⟨out, hout, hperm⟩ := send_val_perm s σ ctx jobs req hσ
  refine ⟨out, hout, ?_⟩
  rw [hperm.length_eq, List.length_filterMap_eq_countP]
  have h : (s.units ctx jobs req).map (fun u => u.1.isSome) =
      jobs.map (fun j => j.payloader.isSome) := by
    apply List.ext_getElem?
    intro n
    rw [List.getElem?_map, List.getElem?_map, getElem?_units]
    cases jobs[n]? with
    | none => rfl
    | some j => simp [unit_isSome]
  have e1 : List.countP (fun u => u.1.isSome) (s.units ctx jobs req) =
      List.countP (fun b => b) ((s.units ctx jobs req).map (fun u => u.1.isSome)) := by
    rw [List.countP_map]; rfl
  have e2 : List.countP (fun j => j.payloader.isSome) jobs =
      List.countP (fun b => b) (jobs.map (fun j => j.payloader.isSome)) := by
    rw [List.countP_map]; rfl
  rw [e1, e2, h]

/-- No call tagged with position `i` is in the trace when the job at `i` makes
none. -/
theorem no_call_of_unit_silent (s : Shipment) (σ : List Nat) (ctx : Context) (jobs : List job)
    (req : Option api.ShippingRequest) (i : Nat) (j : job) (P : Call → Prop)
    (hj : jobs[i]? = some j) (hP : ∀ c ∈ (s.unit ctx req i j).2, P c) :
    ∀ c ∈ (s.send σ ctx jobs req).trace, c.unitOf = i → P c := by
  intro c hc hi
  obtain ⟨k, j', hk, hmem⟩ := mem_send_trace s σ ctx jobs req c hc
  have hki : k = i := by rw [← unitOf_of_mem_unit s ctx req k j' c hmem, hi]
  subst hki
  rw [hj] at hk
  cases hk
  exact hP c hmem

/-! ## Claims about the dispatch engine -/

/-- C6: take N jobs that all have a set capability (job `i` is built from the
pair `js[i]` of provider identifier and capability) and let every transport and
persistence call of the dispatch succeed.  Then `send` returns exactly N
outcomes; up to order they are, for each job, the outcome with that job's
`To()` as Endpoint, the bytes the transport returned for that job as
RawResponse and an empty Error. -/
theorem C6_send_all_succeed (s : Shipment) (σ : List Nat) (ctx : Context)
    (req : Option api.ShippingRequest) (js : List (String × Payloader))
    (hσ : σ.Perm (List.range js.length))
    (hok : ∀ i x, js[i]? = some x →
      (s.client i ctx x.2.To (x.2.Payload req)).2 = none ∧
        s.storage i ctx x.1 (s.client i ctx x.2.To (x.2.Payload req)).1 = none) :
    ∃ out,
      (s.send σ ctx (js.map (fun x => { provider := x.1, payloader := some x.2 })) req).val
        = some out ∧
      out.length = js.length ∧
      out.Perm (js.mapIdx (fun i x =>
        { Endpoint := x.2.To
          RawResponse := (s.client i ctx x.2.To (x.2.Payload req)).1
          Error := "" })) ∧
      ∀ r ∈ out, r.Error = "" := by
  have hσ2 : σ.Perm (List.range
      (js.map (fun x => ({ provider := x.1, payloader := some x.2 } : job))).length) := by
    rwa [List.length_map]
  obtain ⟨out, hout, hperm⟩ := send_val_perm s σ ctx _ req hσ2
  have hu : (s.units ctx (js.map (fun x => { provider := x.1, payloader := some x.2 })) req).map
        (fun u => u.1) =
      (js.mapIdx (fun i x =>
        ({ Endpoint := x.2.To
           RawResponse := (s.client i ctx x.2.To (x.2.Payload req)).1
           Error := "" } : api.ShippingResponse))).map some := by
    apply List.ext_getElem?
    intro n
    rw [List.getElem?_map, List.getElem?_map, getElem?_units, List.getElem?_map,
      List.getElem?_mapIdx]
    cases hx : js[n]? with
    | none => rfl
    | some x =>
      obtain ⟨h1, h2⟩ := hok n x hx
      have hdo : s.client n ctx x.2.To (x.2.Payload req) =
          ((s.client n ctx x.2.To (x.2.Payload req)).1, none) := by rw [← h1]
      simp only [Option.map_some']
      rw [unit_success s ctx req n _ x.2 _ rfl hdo h2]
  have hfm : (s.units ctx (js.map (fun x => { provider := x.1, payloader := some x.2 }))
        req).filterMap (fun u => u.1) =
      js.mapIdx (fun i x =>
        ({ Endpoint := x.2.To
           RawResponse := (s.client i ctx x.2.To (x.2.Payload req)).1
           Error := "" } : api.ShippingResponse)) := by
    have h := List.filterMap_map (fun u : Option api.ShippingResponse × List Call => u.1) id
      (s.units ctx (js.map (fun x => { provider := x.1, payloader := some x.2 })) req)
    rw [hu, List.filterMap_map] at h
    simp only [Function.comp_def, id_eq] at h
    rw [← h]
    exact List.filterMap_some _
  rw [hfm] at hperm
  refine ⟨out, hout, ?_, hperm, ?_⟩
  · rw [hperm.length_eq, List.length_mapIdx]
  · intro r hr
    obtain ⟨n, hn⟩ := List.mem_iff_getElem?.mp (hperm.mem_iff.mp hr)
    rw [List.getElem?_mapIdx] at hn
    cases hx : js[n]? with
    | none => rw [hx] at hn; cases hn
    | some x =>
      rw [hx] at hn
      simp only [Option.map_some', Option.some.injEq] at hn
      rw [← hn]

theorem C6_send_all_succeed_witness :
    [1, 0].Perm (List.range [("x", providerX), ("x", providerX)].length) ∧
    ∃ out,
      (shipmentX.send [1, 0] 0 ([("x", providerX), ("x", providerX)].map
        (fun x => { provider := x.1, payloader := some x.2 })) none).val = some out ∧
      out.length = [("x", providerX), ("x", providerX)].length ∧
      out.Perm ([("x", providerX), ("x", providerX)].mapIdx (fun i x =>
        { Endpoint := x.2.To
          RawResponse := (shipmentX.client i 0 x.2.To (x.2.Payload none)).1
          Error := "" })) ∧
      ∀ r ∈ out, r.Error = "" :=
  ⟨by decide,
    C6_send_all_succeed shipmentX [1, 0] 0 none [("x", providerX), ("x", providerX)]
      (by decide) (fun _ _ _ => ⟨rfl, rfl⟩)⟩

/-- C7: a job with a set capability whose transport call returns bytes `b`
together with a non-nil error `e` emits exactly the outcome with its `To()` as
Endpoint, `b` as RawResponse and the message of `e` as Error, and makes no
`Save` call; in a dispatch that outcome is among the responses and the trace
has no `Save` call of that job. -/
theorem C7_transport_error_outcome (s : Shipment) (ctx : Context)
    (req : Option api.ShippingRequest) (i : Nat) (j : job) (p : Payloader) (b : Bytes)
    (e : GoError) (hp : j.payloader = some p)
    (hdo : s.client i ctx p.To (p.Payload req) = (b, some e)) :
    s.unit ctx req i j =
        (some { Endpoint := p.To, RawResponse := b, Error := e.Error },
          [.Payload i j.provider req, .Do i ctx p.To (p.Payload req)]) ∧
      ∀ σ jobs, σ.Perm (List.range jobs.length) → jobs[i]? = some j →
        (∃ out, (s.send σ ctx jobs req).val = some out ∧
          { Endpoint := p.To, RawResponse := b, Error := e.Error } ∈ out) ∧
        ∀ c ∈ (s.send σ ctx jobs req).trace, c.unitOf = i → c.isSave = false := by
  have hu := unit_transport_error s ctx req i j p b e hp hdo
  refine ⟨hu, ?_⟩
  intro σ jobs hσ hj
  refine ⟨mem_send_val s σ ctx jobs req hσ i j _ hj (by rw [hu]), ?_⟩
  apply no_call_of_unit_silent s σ ctx jobs req i j (fun c => c.isSave = false) hj
  intro c hc
  rw [hu] at hc
  simp only [List.mem_cons, List.mem_singleton, List.not_mem_nil, or_false] at hc
  rcases hc with rfl | rfl <;> rfl

theorem C7_transport_error_outcome_witness :
    (({ provider := "x", payloader := some providerX } : job).payloader = some providerX ∧
      shipmentDown.client 0 0 providerX.To (providerX.Payload none) =
        (some [7], some (.other "network timeout"))) ∧
    (shipmentDown.unit 0 none 0 { provider := "x", payloader := some providerX } =
        (some { Endpoint := providerX.To, RawResponse := some [7],
                Error := (GoError.other "network timeout").Error },
          [.Payload 0 "x" none, .Do 0 0 providerX.To (providerX.Payload none)]) ∧
      ∀ σ jobs, σ.Perm (List.range jobs.length) →
        jobs[0]? = some { provider := "x", payloader := some providerX } →
        (∃ out, (shipmentDown.send σ 0 jobs none).val = some out ∧
          { Endpoint := providerX.To, RawResponse := some [7],
            Error := (GoError.other "network timeout").Error } ∈ out) ∧
        ∀ c ∈ (shipmentDown.send σ 0 jobs none).trace, c.unitOf = 0 → c.isSave = false) :=
  ⟨⟨rfl, rfl⟩,
    C7_transport_error_outcome shipmentDown 0 none 0
      { provider := "x", payloader := some providerX } providerX (some [7])
      (.other "network timeout") rfl rfl⟩

/-- C8: a job with a set capability whose transport call succeeds with bytes
`b` and whose persistence call fails with error `e` emits exactly the outcome
with its `To()` as Endpoint, `b` as RawResponse and the message of `e` as
Error, after one `Save` call with the provider identifier and `b`; in a
dispatch that outcome is among the responses. -/
theorem C8_storage_error_outcome (s : Shipment) (ctx : Context)
    (req : Option api.ShippingRequest) (i : Nat) (j : job) (p : Payloader) (b : Bytes)
    (e : GoError) (hp : j.payloader = some p)
    (hdo : s.client i ctx p.To (p.Payload req) = (b, none))
    (hsave : s.storage i ctx j.provider b = some e) :
    s.unit ctx req i j =
        (some { Endpoint := p.To, RawResponse := b, Error := e.Error },
          [.Payload i j.provider req, .Do i ctx p.To (p.Payload req),
            .Save i ctx j.provider b]) ∧
      ∀ σ jobs, σ.Perm (List.range jobs.length) → jobs[i]? = some j →
        ∃ out, (s.send σ ctx jobs req).val = some out ∧
          { Endpoint := p.To, RawResponse := b, Error := e.Error } ∈ out := by
  have hu := unit_storage_error s ctx req i j p b e hp hdo hsave
  refine ⟨hu, ?_⟩
  intro σ jobs hσ hj
  exact mem_send_val s σ ctx jobs req hσ i j _ hj (by rw [hu])

theorem C8_storage_error_outcome_witness :
    (({ provider := "x", payloader := some providerX } : job).payloader = some providerX ∧
      shipmentNoDb.client 0 0 providerX.To (providerX.Payload none) = (some [1], none) ∧
      shipmentNoDb.storage 0 0 "x" (some [1]) =
        some (.other "database connection failed")) ∧
    (shipmentNoDb.unit 0 none 0 { provider := "x", payloader := some providerX } =
        (some { Endpoint := providerX.To, RawResponse := some [1],
                Error := (GoError.other "database connection failed").Error },
          [.Payload 0 "x" none, .Do 0 0 providerX.To (providerX.Payload none),
            .Save 0 0 "x" (some [1])]) ∧
      ∀ σ jobs, σ.Perm (List.range jobs.length) →
        jobs[0]? = some { provider := "x", payloader := some providerX } →
        ∃ out, (shipmentNoDb.send σ 0 jobs none).val = some out ∧
          { Endpoint := providerX.To, RawResponse := some [1],
            Error := (GoError.other "database connection failed").Error } ∈ out) :=
  ⟨⟨rfl, rfl, rfl⟩,
    C8_storage_error_outcome shipmentNoDb 0 none 0
      { provider := "x", payloader := some providerX } providerX (some [1])
      (.other "database connection failed") rfl rfl rfl⟩

/-- C9: in every dispatch a job whose capability is unset emits no outcome and
makes no call (its unit returns at once and the trace has no call of that
job), the number of responses is the number of jobs whose capability is set,
and so it is at most the number of jobs. -/
theorem C9_unset_capability_skipped (s : Shipment) (σ : List Nat) (ctx : Context)
    (jobs : List job) (req : Option api.ShippingRequest)
    (hσ : σ.Perm (List.range jobs.length)) :
    (∀ i j, jobs[i]? = some j → j.payloader = none →
        s.unit ctx req i j = (none, []) ∧
          ∀ c ∈ (s.send σ ctx jobs req).trace, c.unitOf ≠ i) ∧
      ∃ out, (s.send σ ctx jobs req).val = some out ∧
        out.length = jobs.countP (fun j => j.payloader.isSome) ∧
        out.length ≤ jobs.length := by
  constructor
  · intro i j hj hp
    have hu := unit_unset s ctx req i j hp
    refine ⟨hu, ?_⟩
    intro c hc hi
    refine no_call_of_unit_silent s σ ctx jobs req i j (fun _ => False) hj ?_ c hc hi
    intro c' hc'
    rw [hu] at hc'
    cases hc'
  · obtain ⟨out, hout, hlen⟩ := send_val_length s σ ctx jobs req hσ
    exact ⟨out, hout, hlen, by rw [hlen]; exact List.countP_le_length _⟩

theorem C9_unset_capability_skipped_witness :
    [1, 0].Perm (List.range
      [({ provider := "provider1", payloader := some providerX } : job),
        { provider := "provider2", payloader := none }].length) ∧
    ((∀ i j, [({ provider := "provider1", payloader := some providerX } : job),
          { provider := "provider2", payloader := none }][i]? = some j →
        j.payloader = none →
        shipmentNil.unit 0 none i j = (none, []) ∧
          ∀ c ∈ (shipmentNil.send [1, 0] 0
              [{ provider := "provider1", payloader := some providerX },
                { provider := "provider2", payloader := none }] none).trace,
            c.unitOf ≠ i) ∧
      ∃ out, (shipmentNil.send [1, 0] 0
            [{ provider := "provider1", payloader := some providerX },
              { provider := "provider2", payloader := none }] none).val = some out ∧
        out.length = [({ provider := "provider1", payloader := some providerX } : job),
          { provider := "provider2", payloader := none }].countP
            (fun j => j.payloader.isSome) ∧
        out.length ≤ [({ provider := "provider1", payloader := some providerX } : job),
          { provider := "provider2", payloader := none }].length) :=
  ⟨by decide,
    C9_unset_capability_skipped shipmentNil [1, 0] 0
      [{ provider := "provider1", payloader := some providerX },
        { provider := "provider2", payloader := none }] none (by decide)⟩

/-- C10, as stated, fails: over the registry
`{"provider1": providerX, "provider2": nil}` and an empty requested-name list,
resolution succeeds with two jobs while `Send` returns a single outcome. -/
theorem C10_counterexample :
    (shipmentNil.jobs []).2 = none ∧
      (shipmentNil.jobs []).1.map List.length = some 2 ∧
      [0, 1].Perm (List.range 2) ∧
      (shipmentNil.Send [0, 1] 0 [] none).err = none ∧
      (shipmentNil.Send [0, 1] 0 [] none).val =
        some [{ Endpoint := "https://x.example.com", RawResponse := some [1], Error := "" }] := by
  decide

/-- C10, amended: whenever resolution succeeds, `Send` returns exactly one
outcome per resolved job whose capability is set; the number of outcomes is at
most the number of resolved jobs, and equals it exactly when every resolved job
has a set capability. -/
theorem C10_Send_one_outcome_per_set_job (s : Shipment) (σ : List Nat) (ctx : Context)
    (providers : List String) (req : Option api.ShippingRequest) (js : List job)
    (hjobs : s.jobs providers = (some js, none))
    (hσ : σ.Perm (List.range js.length)) :
    ∃ out, (s.Send σ ctx providers req).val = some out ∧
      out.length = js.countP (fun j => j.payloader.isSome) ∧
      out.length ≤ js.length ∧
      (out.length = js.length ↔ ∀ j ∈ js, j.payloader.isSome = true) := by
  rw [Send_of_jobs_ok s σ ctx providers req js hjobs]
  obtain ⟨out, hout, hlen⟩ := send_val_length s σ ctx js req hσ
  refine ⟨out, hout, hlen, by rw [hlen]; exact List.countP_le_length _, ?_⟩
  rw [hlen]
  exact List.countP_eq_length

theorem C10_Send_one_outcome_per_set_job_witness :
    (shipmentNil.jobs [] = (some shipmentNil.allJobs, none) ∧
      [0, 1].Perm (List.range shipmentNil.allJobs.length)) ∧
    ∃ out, (shipmentNil.Send [0, 1] 0 [] none).val = some out ∧
      out.length = shipmentNil.allJobs.countP (fun j => j.payloader.isSome) ∧
      out.length ≤ shipmentNil.allJobs.length ∧
      (out.length = shipmentNil.allJobs.length ↔
        ∀ j ∈ shipmentNil.allJobs, j.payloader.isSome = true) :=
  ⟨⟨rfl, by decide⟩,
    C10_Send_one_outcome_per_set_job shipmentNil [0, 1] 0 [] none shipmentNil.allJobs rfl
      (by decide)⟩

/-! ## Claims about failure isolation and error reporting -/

/-- A unit only consults the collaborators at its own position. -/
theorem unit_congr (s s' : Shipment) (ctx : Context) (req : Option api.ShippingRequest)
    (i : Nat) (j : job) (hc : s'.client i = s.client i) (hs : s'.storage i = s.storage i) :
    s'.unit ctx req i j = s.unit ctx req i j := by
  simp only [Shipment.unit, hc, hs]

/-- The outcome of a unit is determined by the destination, the transport
result and the persistence result. -/
theorem unit_outcome_congr (s s' : Shipment) (ctx ctx' : Context)
    (req req' : Option api.ShippingRequest) (i i' : Nat) (j j' : job) (p p' : Payloader)
    (hp : j.payloader = some p) (hp' : j'.payloader = some p') (hTo : p.To = p'.To)
    (hdo : s.client i ctx p.To (p.Payload req) = s'.client i' ctx' p'.To (p'.Payload req'))
    (hsave : s.storage i ctx j.provider (s.client i ctx p.To (p.Payload req)).1 =
      s'.storage i' ctx' j'.provider (s'.client i' ctx' p'.To (p'.Payload req')).1) :
    (s.unit ctx req i j).1 = (s'.unit ctx' req' i' j').1 := by
  simp only [Shipment.unit, hp, hp']
  rw [hsave, hdo, hTo]
  cases (s'.client i' ctx' p'.To (p'.Payload req')).2 with
  | some e => rfl
  | none =>
    cases s'.storage i' ctx' j'.provider (s'.client i' ctx' p'.To (p'.Payload req')).1 with
    | some e => rfl
    | none => rfl

/-- The units of a dispatch over three jobs. -/
theorem units_three (s : Shipment) (ctx : Context) (req : Option api.ShippingRequest)
    (jA jB jC : job) :
    s.units ctx [jA, jB, jC] req =
      [s.unit ctx req 0 jA, s.unit ctx req 1 jB, s.unit ctx req 2 jC] := by
  apply List.ext_getElem?
  intro n
  rw [getElem?_units]
  match n with
  | 0 => rfl
  | 1 => rfl
  | 2 => rfl
  | n + 3 => rfl

/-- C11, as stated, fails in its three-job scenario: job B fails at transport
with an error whose message is empty, and its entry in the result has an empty
Error. -/
theorem C11_counterexample :
    (shipmentMixedMute.client 1 0 (providerNamed "provider2").To
        ((providerNamed "provider2").Payload none)).2 ≠ none ∧
      (shipmentMixedMute.send [0, 1, 2] 0 jobsABC none).val =
        some [{ Endpoint := "https://provider1.example.com", RawResponse := some [0], Error := "" },
          { Endpoint := "https://provider2.example.com", RawResponse := none, Error := "" },
          { Endpoint := "https://provider3.example.com", RawResponse := some [2],
            Error := "storage error" }] := by
  decide

/-- C11, amended: the outcome a job contributes depends only on its own
destination, transport result and persistence result.  If two runs over the
same job set differ only in what the collaborators answer to job `b`, every
other job has the same unit behaviour in both runs and its outcome is among the
responses of both.  With three jobs where A succeeds, B fails at transport and
C fails at persistence, the result has three entries: A with empty Error and
its response body, B with the message of its transport error as Error, C with
the message of its persistence error as Error and its transport response
body. -/
theorem C11_partial_failure_isolation (s s' : Shipment) (σ σ' : List Nat) (ctx : Context)
    (req : Option api.ShippingRequest) (jobs : List job) (b : Nat)
    (hσ : σ.Perm (List.range jobs.length)) (hσ' : σ'.Perm (List.range jobs.length))
    (hsame : ∀ i, i ≠ b → s'.client i = s.client i ∧ s'.storage i = s.storage i) :
    (∀ i j, i ≠ b → jobs[i]? = some j →
        s'.unit ctx req i j = s.unit ctx req i j ∧
          ∀ r, (s.unit ctx req i j).1 = some r →
            (∃ out, (s.send σ ctx jobs req).val = some out ∧ r ∈ out) ∧
              ∃ out', (s'.send σ' ctx jobs req).val = some out' ∧ r ∈ out') ∧
      (∀ (t t' : Shipment) (c c' : Context) (q q' : Option api.ShippingRequest) (i i' : Nat)
          (j j' : job) (p p' : Payloader),
        j.payloader = some p → j'.payloader = some p' → p.To = p'.To →
        t.client i c p.To (p.Payload q) = t'.client i' c' p'.To (p'.Payload q') →
        t.storage i c j.provider (t.client i c p.To (p.Payload q)).1 =
          t'.storage i' c' j'.provider (t'.client i' c' p'.To (p'.Payload q')).1 →
        (t.unit c q i j).1 = (t'.unit c' q' i' j').1) ∧
      ∀ (jA jB jC : job) (pA pB pC : Payloader) (bA bB bC : Bytes) (eB eC : GoError),
        jobs = [jA, jB, jC] →
        jA.payloader = some pA → jB.payloader = some pB → jC.payloader = some pC →
        s.client 0 ctx pA.To (pA.Payload req) = (bA, none) →
        s.storage 0 ctx jA.provider bA = none →
        s.client 1 ctx pB.To (pB.Payload req) = (bB, some eB) →
        s.client 2 ctx pC.To (pC.Payload req) = (bC, none) →
        s.storage 2 ctx jC.provider bC = some eC →
        ∃ out, (s.send σ ctx jobs req).val = some out ∧ out.length = 3 ∧
          out.Perm
            [{ Endpoint := pA.To, RawResponse := bA, Error := "" },
              { Endpoint := pB.To, RawResponse := bB, Error := eB.Error },
              { Endpoint := pC.To, RawResponse := bC, Error := eC.Error }] := by
  refine ⟨?_, ?_, ?_⟩
  · intro i j hi hj
    have hu := unit_congr s s' ctx req i j (hsame i hi).1 (hsame i hi).2
    refine ⟨hu, ?_⟩
    intro r hr
    exact ⟨mem_send_val s σ ctx jobs req hσ i j r hj hr,
      mem_send_val s' σ' ctx jobs req hσ' i j r hj (by rw [hu]; exact hr)⟩
  · intro t t' c c' q q' i i' j j' p p' hp hp' hTo hdo hsave
    exact unit_outcome_congr t t' c c' q q' i i' j j' p p' hp hp' hTo hdo hsave
  · intro jA jB jC pA pB pC bA bB bC eB eC hjobs hpA hpB hpC hA hAs hB hC hCs
    obtain ⟨out, hout, hperm⟩ := send_val_perm s σ ctx jobs req hσ
    subst hjobs
    rw [units_three, unit_success s ctx req 0 jA pA bA hpA hA hAs,
      unit_transport_error s ctx req 1 jB pB bB eB hpB hB,
      unit_storage_error s ctx req 2 jC pC bC eC hpC hC hCs] at hperm
    exact ⟨out, hout, by rw [hperm.length_eq]; rfl, hperm⟩

theorem C11_partial_failure_isolation_witness :
    ([2, 0, 1].Perm (List.range jobsABC.length) ∧
      [0, 1, 2].Perm (List.range jobsABC.length) ∧
      ∀ i, i ≠ 1 → shipmentMixedB.client i = shipmentMixed.client i ∧
        shipmentMixedB.storage i = shipmentMixed.storage i) ∧
    shipmentMixedB.unit 0 none 0
        { provider := "provider1", payloader := some (providerNamed "provider1") } =
      shipmentMixed.unit 0 none 0
        { provider := "provider1", payloader := some (providerNamed "provider1") } ∧
    ∃ out, (shipmentMixed.send [2, 0, 1] 0 jobsABC none).val = some out ∧ out.length = 3 ∧
      out.Perm
        [{ Endpoint := (providerNamed "provider1").To, RawResponse := some [0], Error := "" },
          { Endpoint := (providerNamed "provider2").To, RawResponse := none,
            Error := (GoError.other "client error").Error },
          { Endpoint := (providerNamed "provider3").To, RawResponse := some [2],
            Error := (GoError.other "storage error").Error }] := by
  have hsame : ∀ i, i ≠ 1 → shipmentMixedB.client i = shipmentMixed.client i ∧
      shipmentMixedB.storage i = shipmentMixed.storage i := by
    intro i hi
    exact ⟨by simp [shipmentMixedB, hi], rfl⟩
  have h := C11_partial_failure_isolation shipmentMixed shipmentMixedB [2, 0, 1] [0, 1, 2] 0 none
    jobsABC 1 (by decide) (by decide) hsame
  refine ⟨⟨by decide, by decide, hsame⟩, (h.1 0 _ (by decide) rfl).1, ?_⟩
  exact h.2.2 _ _ _ (providerNamed "provider1") (providerNamed "provider2")
    (providerNamed "provider3") (some [0]) none (some [2]) (.other "client error")
    (.other "storage error") rfl rfl rfl rfl rfl rfl rfl rfl rfl

/-- The base64 text of a byte sequence is at least as long as the sequence. -/
theorem length_le_length_base64 (l : List Nat) : l.length ≤ (request.base64 l).length := by
  induction l using request.base64.induct with
  | case1 => simp [request.base64]
  | case2 a => simp [request.base64]
  | case3 a b => simp [request.base64]
  | case4 a b c rest ih =>
    simp only [request.base64, List.length_cons]
    omega

/-- The body of the request that `Client.Do` builds is never the payload it
was given. -/
theorem newRequest_body_ne_payload (c : request.Client) (ctx : Context) (dest : String)
    (payload : Bytes) (req : request.Request)
    (h : c.newRequest ctx dest payload = .ok req) : some req.body ≠ payload := by
  cases payload with
  | none => simp
  | some b =>
    simp only [request.Client.newRequest, request.jsonMarshalBytes] at h
    cases hn : c.newRequestErr ctx "POST" dest with
    | some e => rw [hn] at h; cases h
    | none =>
      rw [hn] at h
      cases h
      intro heq
      have hlen := congrArg (fun o : Bytes => (o.map List.length).getD 0) heq
      have hb := length_le_length_base64 b
      simp at hlen
      omega

/-- C12 fails on the code: for the payload `{"a":1}` the request that
`Client.Do` builds for provider b carries the body `"eyJhIjoxfQ=="`, the JSON
string with the base64 text of the payload, not the payload bytes. -/
theorem C12_request_body_is_base64_of_payload :
    clientOk.newRequest 0 b.Provider (some [123, 34, 97, 34, 58, 49, 125]) =
        .ok { ctx := 0, method := "POST", url := "http://localhost:3031/v1/b",
              body := [34, 101, 121, 74, 104, 73, 106, 111, 120, 102, 81, 61, 61, 34],
              contentType := "application/json" } ∧
      [34, 101, 121, 74, 104, 73, 106, 111, 120, 102, 81, 61, 61, 34] ≠
        [123, 34, 97, 34, 58, 49, 125] := by
  exact ⟨rfl, by decide⟩

/-- C13, as stated, fails: the transport call of the job fails with an error
whose message is empty, and the outcome the job emits has an empty Error. -/
theorem C13_counterexample :
    (shipmentMute.client 0 0 providerX.To (providerX.Payload none)).2 = some (.other "") ∧
      (shipmentMute.unit 0 none 0 { provider := "x", payloader := some providerX }).1 =
        some { Endpoint := "https://x.example.com", RawResponse := none, Error := "" } := by
  decide

/-- C13, amended: the outcome of a job with a set capability carries the
message of the failing call as Error (of the transport error, or else of the
persistence error) and an empty Error when both calls succeed.  So a non-empty
Error always means that the job failed, and when the errors the job received
have non-empty messages, Error is empty exactly when the job fully
succeeded. -/
theorem C13_error_is_failure_message (s : Shipment) (ctx : Context)
    (req : Option api.ShippingRequest) (i : Nat) (j : job) (p : Payloader)
    (hp : j.payloader = some p) :
    ∃ r, (s.unit ctx req i j).1 = some r ∧
      (∀ e, (s.client i ctx p.To (p.Payload req)).2 = some e → r.Error = e.Error) ∧
      (∀ e, (s.client i ctx p.To (p.Payload req)).2 = none →
        s.storage i ctx j.provider (s.client i ctx p.To (p.Payload req)).1 = some e →
        r.Error = e.Error) ∧
      ((s.client i ctx p.To (p.Payload req)).2 = none →
        s.storage i ctx j.provider (s.client i ctx p.To (p.Payload req)).1 = none →
        r.Error = "") ∧
      (r.Error ≠ "" →
        ¬ ((s.client i ctx p.To (p.Payload req)).2 = none ∧
          s.storage i ctx j.provider (s.client i ctx p.To (p.Payload req)).1 = none)) ∧
      ((∀ e, ((s.client i ctx p.To (p.Payload req)).2 = some e ∨
            s.storage i ctx j.provider (s.client i ctx p.To (p.Payload req)).1 = some e) →
          e.Error ≠ "") →
        (r.Error = "" ↔
          ((s.client i ctx p.To (p.Payload req)).2 = none ∧
            s.storage i ctx j.provider (s.client i ctx p.To (p.Payload req)).1 = none))) := by
  cases hdo : s.client i ctx p.To (p.Payload req) with
  | mk b e =>
    cases e with
    | some e =>
      refine ⟨_, by rw [unit_transport_error s ctx req i j p b e hp hdo], ?_⟩
      refine ⟨?_, ?_, ?_, ?_, ?_⟩
      · intro e' he'; cases he'; rfl
      · intro e' he'; cases he'
      · intro he'; cases he'
      · intro _ h; cases h.1
      · intro hmsg
        constructor
        · intro h; exact absurd h (hmsg e (Or.inl rfl))
        · intro h; cases h.1
    | none =>
      cases hsave : s.storage i ctx j.provider b with
      | some e =>
        refine ⟨_, by rw [unit_storage_error s ctx req i j p b e hp hdo hsave], ?_⟩
        refine ⟨?_, ?_, ?_, ?_, ?_⟩
        · intro e' he'; cases he'
        · intro e' _ he'; cases he'; rfl
        · intro _ he'; cases he'
        · intro _ h; cases h.2
        · intro hmsg
          constructor
          · intro h; exact absurd h (hmsg e (Or.inr rfl))
          · intro h; cases h.2
      | none =>
        refine ⟨_, by rw [unit_success s ctx req i j p b hp hdo hsave], ?_⟩
        refine ⟨?_, ?_, ?_, ?_, ?_⟩
        · intro e' he'; cases he'
        · intro e' _ he'; cases he'
        · intro _ _; rfl
        · intro h; exact absurd rfl h
        · intro _
          exact ⟨fun _ => ⟨rfl, rfl⟩, fun _ => rfl⟩

theorem C13_error_is_failure_message_witness :
    ({ provider := "x", payloader := some providerX } : job).payloader = some providerX ∧
    ∃ r, (shipmentDown.unit 0 none 0 { provider := "x", payloader := some providerX }).1 =
        some r ∧
      (∀ e, (shipmentDown.client 0 0 providerX.To (providerX.Payload none)).2 = some e →
        r.Error = e.Error) ∧
      (∀ e, (shipmentDown.client 0 0 providerX.To (providerX.Payload none)).2 = none →
        shipmentDown.storage 0 0 "x"
          (shipmentDown.client 0 0 providerX.To (providerX.Payload none)).1 = some e →
        r.Error = e.Error) ∧
      ((shipmentDown.client 0 0 providerX.To (providerX.Payload none)).2 = none →
        shipmentDown.storage 0 0 "x"
          (shipmentDown.client 0 0 providerX.To (providerX.Payload none)).1 = none →
        r.Error = "") ∧
      (r.Error ≠ "" →
        ¬ ((shipmentDown.client 0 0 providerX.To (providerX.Payload none)).2 = none ∧
          shipmentDown.storage 0 0 "x"
            (shipmentDown.client 0 0 providerX.To (providerX.Payload none)).1 = none)) ∧
      ((∀ e, ((shipmentDown.client 0 0 providerX.To (providerX.Payload none)).2 = some e ∨
            shipmentDown.storage 0 0 "x"
              (shipmentDown.client 0 0 providerX.To (providerX.Payload none)).1 = some e) →
          e.Error ≠ "") →
        (r.Error = "" ↔
          ((shipmentDown.client 0 0 providerX.To (providerX.Payload none)).2 = none ∧
            shipmentDown.storage 0 0 "x"
              (shipmentDown.client 0 0 providerX.To (providerX.Payload none)).1 = none))) :=
  ⟨rfl,
    C13_error_is_failure_message shipmentDown 0 none 0
      { provider := "x", payloader := some providerX } providerX rfl⟩

/-- The message of an error returned by `Storage.Save` starts with
`failed to save shipment, `. -/
theorem Save_error_message (st : storage.Storage) (ctx : Context) (provider : String)
    (payload : Bytes) (e : GoError) (h : st.Save ctx provider payload = some e) :
    ∃ m, e.Error = "failed to save shipment, " ++ m := by
  unfold storage.Storage.Save at h
  split at h
  · next err _ =>
    cases h
    exact ⟨err.Error, rfl⟩
  · cases h

/-- C14, as stated, fails: the same job fails at transport in one run and at
persistence in another, both errors have the message `network timeout`, and
the two outcomes carry the same Error. -/
theorem C14_counterexample :
    (shipmentDown.client 0 0 providerX.To (providerX.Payload none)).2 ≠ none ∧
      (shipmentDbTimeout.client 0 0 providerX.To (providerX.Payload none)).2 = none ∧
      shipmentDbTimeout.storage 0 0 "x"
        (shipmentDbTimeout.client 0 0 providerX.To (providerX.Payload none)).1 ≠ none ∧
      ((shipmentDown.unit 0 none 0 { provider := "x", payloader := some providerX }).1.map
          (fun r => r.Error)) = some "network timeout" ∧
      ((shipmentDbTimeout.unit 0 none 0 { provider := "x", payloader := some providerX }).1.map
          (fun r => r.Error)) = some "network timeout" := by
  decide

/-- C14, amended: `send` copies the message of the failing call into Error
without marking the stage.  For a job that fails at transport with error `e1`
in one run and at persistence with error `e2` in another, the two outcomes
carry the messages of `e1` and `e2`, so they carry the same Error exactly when
the two messages are equal.  When persistence is `Storage.Save`, the
persistence message starts with `failed to save shipment, `, so the two
outcomes differ whenever the message of `e1` is not of that form. -/
theorem C14_same_error_iff_same_message (s1 s2 : Shipment) (ctx : Context)
    (req : Option api.ShippingRequest) (i : Nat) (j : job) (p : Payloader)
    (b1 b2 : Bytes) (e1 e2 : GoError) (hp : j.payloader = some p)
    (h1 : s1.client i ctx p.To (p.Payload req) = (b1, some e1))
    (h2 : s2.client i ctx p.To (p.Payload req) = (b2, none))
    (h2s : s2.storage i ctx j.provider b2 = some e2) :
    ∃ r1 r2, (s1.unit ctx req i j).1 = some r1 ∧ (s2.unit ctx req i j).1 = some r2 ∧
      r1.Error = e1.Error ∧ r2.Error = e2.Error ∧
      (r1.Error = r2.Error ↔ e1.Error = e2.Error) ∧
      ∀ st : storage.Storage, s2.storage i = st.Save →
        (∃ m, r2.Error = "failed to save shipment, " ++ m) ∧
          ((∀ m, e1.Error ≠ "failed to save shipment, " ++ m) → r1.Error ≠ r2.Error) := by
  refine ⟨_, _, by rw [unit_transport_error s1 ctx req i j p b1 e1 hp h1],
    by rw [unit_storage_error s2 ctx req i j p b2 e2 hp h2 h2s], rfl, rfl, Iff.rfl, ?_⟩
  intro st hst
  rw [hst] at h2s
  obtain ⟨m, hm⟩ := Save_error_message st ctx j.provider b2 e2 h2s
  refine ⟨⟨m, hm⟩, ?_⟩
  intro hne heq
  exact hne m (by rw [← hm]; exact heq)

theorem C14_same_error_iff_same_message_witness :
    (({ provider := "x", payloader := some providerX } : job).payloader = some providerX ∧
      shipmentDown.client 0 0 providerX.To (providerX.Payload none) =
        (some [7], some (.other "network timeout")) ∧
      shipmentRefused.client 0 0 providerX.To (providerX.Payload none) = (some [1], none) ∧
      shipmentRefused.storage 0 0 "x" (some [1]) =
        some (.wrapped "failed to save shipment, connection refused"
          (.other "connection refused"))) ∧
    ∃ r1 r2,
      (shipmentDown.unit 0 none 0 { provider := "x", payloader := some providerX }).1 = some r1 ∧
      (shipmentRefused.unit 0 none 0 { provider := "x", payloader := some providerX }).1 =
        some r2 ∧
      r1.Error = (GoError.other "network timeout").Error ∧
      r2.Error =
        (GoError.wrapped "failed to save shipment, connection refused"
          (.other "connection refused")).Error ∧
      (r1.Error = r2.Error ↔
        (GoError.other "network timeout").Error =
          (GoError.wrapped "failed to save shipment, connection refused"
            (.other "connection refused")).Error) ∧
      ∀ st : storage.Storage, shipmentRefused.storage 0 = st.Save →
        (∃ m, r2.Error = "failed to save shipment, " ++ m) ∧
          ((∀ m, (GoError.other "network timeout").Error ≠ "failed to save shipment, " ++ m) →
            r1.Error ≠ r2.Error) :=
  ⟨⟨rfl, rfl, rfl, by decide⟩,
    C14_same_error_iff_same_message shipmentDown shipmentRefused 0 none 0
      { provider := "x", payloader := some providerX } providerX (some [7]) (some [1])
      (.other "network timeout")
      (.wrapped "failed to save shipment, connection refused" (.other "connection refused"))
      rfl rfl rfl (by decide)⟩

/-! ## Claims about the calls of a dispatch -/

/-- Keeping the calls tagged `i` in the traces of the finished units leaves the
trace of unit `i`, once for each time `i` occurs in the completion order. -/
theorem filter_unit_flatten {α : Type} (U : List (α × List Call))
    (hU : ∀ (k : Nat) (u : α × List Call), U[k]? = some u → ∀ c ∈ u.2, c.unitOf = k)
    (σ : List Nat) (i : Nat) :
    (((σ.filterMap (fun k => U[k]?)).map (fun u => u.2)).flatten).filter
        (fun c => c.unitOf == i) =
      (List.replicate (σ.count i) (((U[i]?).map (fun u => u.2)).getD [])).flatten := by
  induction σ with
  | nil => rfl
  | cons k σ ih =>
    rw [List.filterMap_cons]
    cases hk : U[k]? with
    | none =>
      simp only []
      rw [ih]
      by_cases hki : k = i
      · subst hki
        simp [hk]
      · have hik : i ≠ k := fun h => hki h.symm
        rw [List.count_cons_of_ne hik]
    | some u =>
      simp only [List.map_cons, List.flatten_cons, List.filter_append]
      rw [ih]
      by_cases hki : k = i
      · subst hki
        have hall : u.2.filter (fun c => c.unitOf == k) = u.2 := by
          rw [List.filter_eq_self]
          intro c hc
          simp [hU k u hk c hc]
        rw [hall, List.count_cons_self, List.replicate_succ, List.flatten_cons, hk]
        rfl
      · have hik : i ≠ k := fun h => hki h.symm
        have hnone : u.2.filter (fun c => c.unitOf == i) = [] := by
          rw [List.filter_eq_nil_iff]
          intro c hc
          simp [hU k u hk c hc, hki]
        rw [hnone, List.count_cons_of_ne hik]
        rfl

/-- In the trace of a dispatch the calls tagged `i` are the calls of the unit
of job `i`, in the order in which that unit makes them. -/
theorem send_trace_filter_unit (s : Shipment) (σ : List Nat) (ctx : Context) (jobs : List job)
    (req : Option api.ShippingRequest) (hσ : σ.Perm (List.range jobs.length))
    (i : Nat) (j : job) (hj : jobs[i]? = some j) :
    (s.send σ ctx jobs req).trace.filter (fun c => c.unitOf == i) =
      (s.unit ctx req i j).2 := by
  have hU : ∀ (k : Nat) (u : Option api.ShippingResponse × List Call),
      (s.units ctx jobs req)[k]? = some u → ∀ c ∈ u.2, c.unitOf = k := by
    intro k u hk c hc
    rw [getElem?_units] at hk
    cases hjk : jobs[k]? with
    | none => rw [hjk] at hk; cases hk
    | some j' =>
      rw [hjk] at hk
      simp only [Option.map_some', Option.some.injEq] at hk
      subst hk
      exact unitOf_of_mem_unit s ctx req k j' c hc
  have hi : i < jobs.length := by
    obtain ⟨h, _⟩ := List.getElem?_eq_some.mp hj
    exact h
  have hcount : σ.count i = 1 := by
    rw [hσ.count_eq i]
    exact List.count_eq_one_of_mem (List.nodup_range _) (List.mem_range.mpr hi)
  have h := filter_unit_flatten (s.units ctx jobs req) hU σ i
  rw [hcount, getElem?_units, hj] at h
  have ht : (s.send σ ctx jobs req).trace =
      ((σ.filterMap (fun k => (s.units ctx jobs req)[k]?)).map (fun u => u.2)).flatten := rfl
  rw [ht, h]
  simp [List.replicate]

/-- The calls a unit makes. -/
theorem unit_trace (s : Shipment) (ctx : Context) (req : Option api.ShippingRequest)
    (i : Nat) (j : job) :
    (s.unit ctx req i j).2 =
      match j.payloader with
      | none => []
      | some p =>
        Call.Payload i j.provider req :: Call.Do i ctx p.To (p.Payload req) ::
          (if (s.client i ctx p.To (p.Payload req)).2 = none
            then [Call.Save i ctx j.provider (s.client i ctx p.To (p.Payload req)).1]
            else []) := by
  cases hp : j.payloader with
  | none => rw [unit_unset s ctx req i j hp]
  | some p =>
    cases hdo : s.client i ctx p.To (p.Payload req) with
    | mk b e =>
      cases e with
      | some e => rw [unit_transport_error s ctx req i j p b e hp hdo]; simp [hdo]
      | none =>
        cases hsave : s.storage i ctx j.provider b with
        | some e => rw [unit_storage_error s ctx req i j p b e hp hdo hsave]; simp [hdo]
        | none => rw [unit_success s ctx req i j p b hp hdo hsave]; simp [hdo]

/-- C15: in a dispatch, the calls made for the job at position `i` are, in
order: nothing when its capability is unset; otherwise one `Payload` call with
the shared request, one `Do` call with the job's destination and that payload,
and then one `Save` call with the provider identifier and the bytes the
transport returned if the transport call succeeded, and no `Save` call if it
failed. -/
theorem C15_each_call_once (s : Shipment) (σ : List Nat) (ctx : Context) (jobs : List job)
    (req : Option api.ShippingRequest) (hσ : σ.Perm (List.range jobs.length))
    (i : Nat) (j : job) (hj : jobs[i]? = some j) :
    (s.send σ ctx jobs req).trace.filter (fun c => c.unitOf == i) =
      match j.payloader with
      | none => []
      | some p =>
        Call.Payload i j.provider req :: Call.Do i ctx p.To (p.Payload req) ::
          (if (s.client i ctx p.To (p.Payload req)).2 = none
            then [Call.Save i ctx j.provider (s.client i ctx p.To (p.Payload req)).1]
            else []) := by
  rw [send_trace_filter_unit s σ ctx jobs req hσ i j hj, unit_trace]

theorem C15_each_call_once_witness :
    ([2, 0, 1].Perm (List.range jobsABC.length) ∧
      jobsABC[2]? =
        some { provider := "provider3", payloader := some (providerNamed "provider3") }) ∧
    (shipmentMixed.send [2, 0, 1] 0 jobsABC none).trace.filter (fun c => c.unitOf == 2) =
      match ({ provider := "provider3", payloader := some (providerNamed "provider3") } :
          job).payloader with
      | none => []
      | some p =>
        Call.Payload 2 "provider3" none :: Call.Do 2 0 p.To (p.Payload none) ::
          (if (shipmentMixed.client 2 0 p.To (p.Payload none)).2 = none
            then [Call.Save 2 0 "provider3" (shipmentMixed.client 2 0 p.To (p.Payload none)).1]
            else []) :=
  ⟨⟨by decide, rfl⟩,
    C15_each_call_once shipmentMixed [2, 0, 1] 0 jobsABC none (by decide) 2
      { provider := "provider3", payloader := some (providerNamed "provider3") } rfl⟩

/-- When a requested name is not registered, `Send` makes no call. -/
theorem Send_trace_unregistered (s : Shipment) (σ : List Nat) (ctx : Context)
    (providers : List String) (req : Option api.ShippingRequest)
    (h : ∃ n ∈ providers, s.providers.contains n = false) :
    (s.Send σ ctx providers req).trace = [] := by
  obtain ⟨pre, name, post, e, hpre, hname⟩ := split_first_unregistered s.providers providers h
  subst e
  rw [Send_of_jobs_err s σ ctx _ req _ _ (jobs_unsupported s pre post name hpre hname)]

/-! ## Claims about the HTTP handler -/

/-- The loop of `providerList` keeps the non-empty values, in order. -/
theorem providerList_loop (providers out : List String) :
    providers.foldl (fun out p => if p = "" then out else out ++ [p]) out =
      out ++ providers.filter (fun p => p != "") := by
  induction providers generalizing out with
  | nil => simp
  | cons p ps ih =>
    rw [List.foldl_cons, ih]
    by_cases hp : p = ""
    · simp [hp]
    · simp [hp]

/-- The error `errors.As` finds is a `*ErrProviderUnsupported`. -/
theorem asErrProviderUnsupported_eq_some (err target : GoError)
    (h : handler.asErrProviderUnsupported err = some target) :
    ∃ name, target = .ErrProviderUnsupported name := by
  induction err with
  | ErrProviderUnsupported p =>
    simp only [handler.asErrProviderUnsupported, Option.some.injEq] at h
    exact ⟨p, h.symm⟩
  | other msg => cases h
  | wrapped msg inner ih => exact ih h

/-- An error payload always encodes. -/
theorem write_Error (compact : List Nat → Except GoError (List Nat)) (msg : String) :
    response.write compact (.Error msg) = none := rfl

/-- `Response.write` returns when the encoder accepts every `RawResponse`. -/
theorem write_eq_none_of_accepted (compact : List Nat → Except GoError (List Nat))
    (resp : Option (List api.ShippingResponse))
    (h : ∀ r ∈ resp.getD [], ∀ b, r.RawResponse = some b → ∃ out, compact b = .ok out) :
    response.write compact (.ShippingResponses resp) = none := by
  have hfirst : ∀ l : List api.ShippingResponse,
      (∀ r ∈ l, ∀ b, r.RawResponse = some b → ∃ out, compact b = .ok out) →
      response.firstError (l.map (fun r => response.encodeRawMessage compact r.RawResponse)) =
        none := by
    intro l
    induction l with
    | nil => intro _; rfl
    | cons r rs ih =>
      intro hl
      have hrs := ih (fun x hx => hl x (List.mem_cons_of_mem r hx))
      cases hb : r.RawResponse with
      | none => simpa [response.firstError, response.encodeRawMessage, hb] using hrs
      | some b =>
        obtain ⟨out, hout⟩ := hl r (List.mem_cons_self r rs) b hb
        simpa [response.firstError, response.encodeRawMessage, hb, hout] using hrs
  simp only [response.write, response.encodeErr, hfirst _ h]

/-- What `write` does with the outcome of a carrier that answered with an empty
body, when the encoder refuses the empty input. -/
theorem write_empty_body (compact : List Nat → Except GoError (List Nat)) (e : GoError)
    (hcompact : compact [] = .error e) :
    response.write compact
        (.ShippingResponses
          (some [{ Endpoint := "https://x.example.com", RawResponse := some [], Error := "" }])) =
      some (.other
        ("json: error calling MarshalJSON for type json.RawMessage: " ++ e.Error)) := by
  simp [response.write, response.encodeErr, response.firstError, response.encodeRawMessage,
    hcompact]

/-- What `Send` returns to the handler over `shipmentEmptyBody`. -/
theorem handlerEmptyBody_sender :
    handlerEmptyBody.sender 0 (handlerEmptyBody.providerList none) (some requestEmpty) =
      (some [{ Endpoint := "https://x.example.com", RawResponse := some [], Error := "" }],
        none) := by
  decide

/-- `CreateShipping` when `Send` returns no error. -/
theorem CreateShipping_of_ok (compact : List Nat → Except GoError (List Nat))
    (h : handler.Shipment) (req : api.ShippingRequest) (query : Option handler.Values)
    (ctx : Context) (resp : Option (List api.ShippingResponse))
    (hs : h.sender ctx (h.providerList query) (some req) = (resp, none)) :
    h.CreateShipping compact { body := some req, query := query, ctx := ctx } =
      { status := 201, payload := .ShippingResponses resp,
        panic := response.write compact (.ShippingResponses resp) } := by
  simp [handler.Shipment.CreateShipping, hs, response.Created]

/-- C17 fails on the code in its 201 branch.  For a decodable body an error of
`Send` that is or wraps an `ErrProviderUnsupported` gives status 400 with the
message `unsupported provider ` followed by the provider name, and any other
error gives status 500 with the message `shipment failed`, as the claim says.
When `Send` returns no error the status is 201 and the outcomes are handed to
`write` unchanged and in order, but they only become the body when the encoder
accepts every RawResponse: for a carrier that answered with an empty body,
`write` panics after the 201 header and the response has no body. -/
theorem C17_status_from_Send_result (compact : List Nat → Except GoError (List Nat))
    (h : handler.Shipment) (req : api.ShippingRequest)
    (query : Option handler.Values) (ctx : Context) :
    (∀ resp err target,
        h.sender ctx (h.providerList query) (some req) = (resp, some err) →
        handler.asErrProviderUnsupported err = some target →
        ∃ name, target = .ErrProviderUnsupported name ∧
          h.CreateShipping compact { body := some req, query := query, ctx := ctx } =
            { status := 400, payload := .Error ("unsupported provider " ++ name),
              panic := none }) ∧
      (∀ resp err,
        h.sender ctx (h.providerList query) (some req) = (resp, some err) →
        handler.asErrProviderUnsupported err = none →
        h.CreateShipping compact { body := some req, query := query, ctx := ctx } =
          { status := 500, payload := .Error "shipment failed", panic := none }) ∧
      (∀ resp,
        h.sender ctx (h.providerList query) (some req) = (resp, none) →
        h.CreateShipping compact { body := some req, query := query, ctx := ctx } =
            { status := 201, payload := .ShippingResponses resp,
              panic := response.write compact (.ShippingResponses resp) } ∧
          ((∀ r ∈ resp.getD [], ∀ b, r.RawResponse = some b → ∃ out, compact b = .ok out) →
            (h.CreateShipping compact { body := some req, query := query, ctx := ctx }).panic =
              none)) ∧
      ∀ e, compact [] = .error e →
        handlerEmptyBody.sender 0 (handlerEmptyBody.providerList none) (some requestEmpty) =
            (some [{ Endpoint := "https://x.example.com", RawResponse := some [], Error := "" }],
              none) ∧
          handlerEmptyBody.CreateShipping compact
              { body := some requestEmpty, query := none, ctx := 0 } =
            { status := 201
              payload := .ShippingResponses
                (some [{ Endpoint := "https://x.example.com", RawResponse := some [],
                         Error := "" }])
              panic := some (.other
                ("json: error calling MarshalJSON for type json.RawMessage: " ++ e.Error)) } := by
  refine ⟨?_, ?_, ?_, ?_⟩
  · intro resp err target hs ht
    obtain ⟨name, hname⟩ := asErrProviderUnsupported_eq_some err target ht
    refine ⟨name, hname, ?_⟩
    subst hname
    simp [handler.Shipment.CreateShipping, hs, ht, response.BadRequest, write_Error,
      GoError.Error]
  · intro resp err hs ht
    simp [handler.Shipment.CreateShipping, hs, ht, response.InternalServer, write_Error]
  · intro resp hs
    have hc := CreateShipping_of_ok compact h req query ctx resp hs
    refine ⟨hc, ?_⟩
    intro hall
    rw [hc]
    exact write_eq_none_of_accepted compact resp hall
  · intro e he
    refine ⟨handlerEmptyBody_sender, ?_⟩
    rw [CreateShipping_of_ok compact handlerEmptyBody requestEmpty none 0 _
      handlerEmptyBody_sender, write_empty_body compact e he]

theorem C17_status_from_Send_result_witness :
    (handlerWrapping.sender 0 (handlerWrapping.providerList none) (some requestEmpty) =
        (none,
          some (.wrapped "dispatch: unsupported provider y" (.ErrProviderUnsupported "y"))) ∧
      handler.asErrProviderUnsupported
          (.wrapped "dispatch: unsupported provider y" (.ErrProviderUnsupported "y")) =
        some (.ErrProviderUnsupported "y") ∧
      compactNonEmpty [] = .error (.other "unexpected end of JSON input")) ∧
    (∃ name, GoError.ErrProviderUnsupported "y" = .ErrProviderUnsupported name ∧
      handlerWrapping.CreateShipping compactNonEmpty
          { body := some requestEmpty, query := none, ctx := 0 } =
        { status := 400, payload := .Error ("unsupported provider " ++ name),
          panic := none }) ∧
    handlerEmptyBody.CreateShipping compactNonEmpty
        { body := some requestEmpty, query := none, ctx := 0 } =
      { status := 201
        payload := .ShippingResponses
          (some [{ Endpoint := "https://x.example.com", RawResponse := some [], Error := "" }])
        panic := some (.other
          ("json: error calling MarshalJSON for type json.RawMessage: " ++
            (GoError.other "unexpected end of JSON input").Error)) } :=
  ⟨⟨rfl, rfl, rfl⟩,
    (C17_status_from_Send_result compactNonEmpty handlerWrapping requestEmpty none 0).1 none
      (.wrapped "dispatch: unsupported provider y" (.ErrProviderUnsupported "y"))
      (.ErrProviderUnsupported "y") rfl rfl,
    ((C17_status_from_Send_result compactNonEmpty handlerWrapping requestEmpty none 0).2.2.2
      (.other "unexpected end of JSON input") rfl).2⟩

/-- C18: `providerList` returns nil when the query has no `providers` key, and
otherwise the values of the `providers` parameter without the empty strings, in
their order; `["provider1", "", "provider2", ""]` gives
`["provider1", "provider2"]`.  When the parameter is absent or has only empty
values, `Send` dispatches to all registered providers. -/
theorem C18_providerList_filters_empty (h : handler.Shipment) :
    h.providerList none = none ∧
      (∀ values : handler.Values, values.lookup "providers" = none →
        h.providerList (some values) = none) ∧
      (∀ (values : handler.Values) (providers : List String),
        values.lookup "providers" = some providers →
        h.providerList (some values) = some (providers.filter (fun p => p != ""))) ∧
      h.providerList (some [("providers", ["provider1", "", "provider2", ""])]) =
        some ["provider1", "provider2"] ∧
      ∀ (s : Shipment) (σ : List Nat) (ctx : Context) (req : Option api.ShippingRequest)
          (values : handler.Values),
        (values.lookup "providers" = none ∨
          ∃ providers, values.lookup "providers" = some providers ∧ ∀ p ∈ providers, p = "") →
        s.Send σ ctx ((h.providerList (some values)).getD []) req =
          s.send σ ctx s.allJobs req := by
  have hsome : ∀ (values : handler.Values) (providers : List String),
      values.lookup "providers" = some providers →
      h.providerList (some values) = some (providers.filter (fun p => p != "")) := by
    intro values providers hv
    simp only [handler.Shipment.providerList, hv]
    rw [providerList_loop]
    simp
  have hnone : ∀ values : handler.Values, values.lookup "providers" = none →
      h.providerList (some values) = none := by
    intro values hv
    simp only [handler.Shipment.providerList, hv]
  refine ⟨rfl, hnone, hsome, ?_, ?_⟩
  · exact hsome [("providers", ["provider1", "", "provider2", ""])]
      ["provider1", "", "provider2", ""] rfl
  · intro s σ ctx req values hv
    have hempty : (h.providerList (some values)).getD [] = [] := by
      rcases hv with hv | ⟨providers, hv, hall⟩
      · rw [hnone values hv]; rfl
      · rw [hsome values providers hv]
        have : providers.filter (fun p => p != "") = [] := by
          rw [List.filter_eq_nil_iff]
          intro p hp
          simp [hall p hp]
        rw [this]; rfl
    rw [hempty]
    exact Send_of_jobs_ok s σ ctx [] req s.allJobs (by simp [Shipment.jobs])

theorem C18_providerList_filters_empty_witness :
    ((([("providers", ["", ""])] : handler.Values).lookup "providers" = none) ∨
      ∃ providers, ([("providers", ["", ""])] : handler.Values).lookup "providers" =
        some providers ∧ ∀ p ∈ providers, p = "") ∧
    shipmentNil.Send [0, 1] 0
        ((handlerX.providerList (some [("providers", ["", ""])])).getD []) none =
      shipmentNil.send [0, 1] 0 shipmentNil.allJobs none :=
  ⟨Or.inr ⟨["", ""], rfl, by decide⟩,
    (C18_providerList_filters_empty handlerX).2.2.2.2 shipmentNil [0, 1] 0 none
      [("providers", ["", ""])] (Or.inr ⟨["", ""], rfl, by decide⟩)⟩

/-- Every `Do` and `Save` call of a unit is given the context the unit was
started with. -/
theorem ctx_of_mem_unit (s : Shipment) (ctx : Context) (req : Option api.ShippingRequest)
    (i : Nat) (j : job) (c : Call) (hc : c ∈ (s.unit ctx req i j).2) (cx : Context)
    (hcx : c.ctx? = some cx) : cx = ctx := by
  rw [unit_trace] at hc
  cases hp : j.payloader with
  | none => rw [hp] at hc; cases hc
  | some p =>
    rw [hp] at hc
    simp only [List.mem_cons] at hc
    rcases hc with rfl | rfl | hc
    · cases hcx
    · cases hcx; rfl
    · split at hc
      · simp only [List.mem_singleton] at hc
        subst hc
        cases hcx; rfl
      · cases hc

/-- C19: the context passed to `Send` is the context of every `Do` and `Save`
call of the dispatch, and the context `CreateShipping` passes to `Send` is the
context of the incoming request. -/
theorem C19_context_propagated (s : Shipment) (σ : List Nat) (ctx : Context)
    (providers : List String) (req : Option api.ShippingRequest) :
    (∀ c ∈ (s.Send σ ctx providers req).trace, ∀ cx, c.ctx? = some cx → cx = ctx) ∧
      (∀ jobs, ∀ c ∈ (s.send σ ctx jobs req).trace, ∀ cx, c.ctx? = some cx → cx = ctx) ∧
      ∀ (compact : List Nat → Except GoError (List Nat)) (r : handler.Request)
          (q : api.ShippingRequest), r.body = some q →
        handler.Shipment.CreateShipping compact { sender := s.asSender σ } r =
          match (s.Send σ r.ctx
              ((handler.Shipment.providerList { sender := s.asSender σ } r.query).getD [])
              (some q)).err with
          | some err =>
            (match handler.asErrProviderUnsupported err with
              | some target => response.BadRequest compact target.Error
              | none => response.InternalServer compact "shipment failed")
          | none =>
            response.Created compact (s.Send σ r.ctx
              ((handler.Shipment.providerList { sender := s.asSender σ } r.query).getD [])
              (some q)).val := by
  have hsend : ∀ jobs, ∀ c ∈ (s.send σ ctx jobs req).trace, ∀ cx, c.ctx? = some cx → cx = ctx := by
    intro jobs c hc cx hcx
    obtain ⟨k, j, _, hmem⟩ := mem_send_trace s σ ctx jobs req c hc
    exact ctx_of_mem_unit s ctx req k j c hmem cx hcx
  refine ⟨?_, hsend, ?_⟩
  · intro c hc cx hcx
    rcases jobs_cases s providers with h | ⟨js, hjs⟩
    · rw [(Send_trace_unregistered s σ ctx providers req h)] at hc
      cases hc
    · rw [Send_of_jobs_ok s σ ctx providers req js hjs] at hc
      exact hsend js c hc cx hcx
  · intro compact r q hq
    simp only [handler.Shipment.CreateShipping, hq, Shipment.asSender]
    cases (s.Send σ r.ctx
      ((handler.Shipment.providerList { sender := s.asSender σ } r.query).getD [])
      (some q)).err with
    | some err => rfl
    | none => rfl

/-! ## Claims about the transformers -/

/-- C20: for every non-nil request, whatever its packages, customs items,
cash-on-delivery fields and strings, `Payload` of provider a and of provider b
returns the marshalled provider request without a panic, and the
`GoodsDescription` of provider b is the description of the first customs item
when there is one and the empty string otherwise. -/
theorem C20_transformers_total (marshalA : a.ProviderARequest → Bytes)
    (marshalB : b.ProviderBRequest → Bytes) (sprintf2f : ℚ → String)
    (req : api.ShippingRequest) :
    (∃ r, a.request (some req) = .ok r ∧ a.Payload marshalA (some req) = .ok (marshalA r)) ∧
      ∃ r, b.request sprintf2f (some req) = .ok r ∧
        b.Payload marshalB sprintf2f (some req) = .ok (marshalB r) ∧
        r.GoodsDescription =
          match req.CustomsItems with
          | [] => ""
          | item :: _ => item.Description := by
  constructor
  · refine ⟨_, rfl, rfl⟩
  · have hr : ∃ r, b.request sprintf2f (some req) = .ok r ∧
        r.GoodsDescription =
          match req.CustomsItems with
          | [] => ""
          | item :: _ => item.Description := by
      obtain ⟨weight, shipper, consignee, dims, packages, items, declared, service, notes,
        isCod, codAmount⟩ := req
      cases items <;> cases isCod <;> cases codAmount <;>
        simp [b.request, deref, index, bind, Except.bind, pure, Except.pure]
    obtain ⟨r, hr1, hr2⟩ := hr
    refine ⟨r, hr1, ?_, hr2⟩
    simp only [b.Payload, hr1, bind, Except.bind]
    rfl

/-- The weight and cash-on-delivery fields of the request provider b builds. -/
theorem b_request_fields (f : ℚ → String) (req : api.ShippingRequest) :
    ∃ r, b.request f (some req) = .ok r ∧
      r.Weight = req.Weight.Value / 1000 ∧
      (r.CODAmount, r.CODCurrency) =
        match req.IsCOD, req.CODAmount with
        | true, some m => (f m.Amount, m.Currency)
        | _, _ => ("0", "USD") := by
  obtain ⟨weight, shipper, consignee, dims, packages, items, declared, service, notes,
    isCod, codAmount⟩ := req
  cases items <;> cases isCod <;> cases codAmount <;>
    simp [b.request, deref, index, bind, Except.bind, pure, Except.pure]

/-- C21 fails on the code: provider b divides the weight by 1000 whatever the
unit.  For a request of 10.5 `KG` the payload Weight is 0.0105 (21/2000), not
10.5 as the claim and the comment `Convert to KG` require. -/
theorem C21_weight_divided_whatever_unit (f : ℚ → String) :
    (∀ req : api.ShippingRequest,
        ∃ r, b.request f (some req) = .ok r ∧ r.Weight = req.Weight.Value / 1000) ∧
      requestKG.Weight = { Value := 21 / 2, Unit := "KG" } ∧
      ∃ r, b.request f (some requestKG) = .ok r ∧ r.Weight = 21 / 2000 ∧
        r.Weight ≠ requestKG.Weight.Value := by
  refine ⟨?_, rfl, ?_⟩
  · intro req
    obtain ⟨r, hr, hw, _⟩ := b_request_fields f req
    exact ⟨r, hr, hw⟩
  · obtain ⟨r, hr, hw, _⟩ := b_request_fields f requestKG
    have hv : requestKG.Weight.Value = 21 / 2 := rfl
    refine ⟨r, hr, ?_, ?_⟩
    · rw [hw, hv]; norm_num
    · rw [hw, hv]; norm_num

/-- C22: the cash-on-delivery fields of provider b are the formatted amount
and the currency of the request when `IsCOD` is true and `CODAmount` is
present, and `0` and `USD` in every other case, so an amount supplied with
`IsCOD` false is ignored. -/
theorem C22_cod_fields (f : ℚ → String) (req : api.ShippingRequest) :
    ∃ r, b.request f (some req) = .ok r ∧
      (∀ m, req.IsCOD = true → req.CODAmount = some m →
        r.CODAmount = f m.Amount ∧ r.CODCurrency = m.Currency) ∧
      ((req.IsCOD = false ∨ req.CODAmount = none) →
        r.CODAmount = "0" ∧ r.CODCurrency = "USD") := by
  obtain ⟨r, hr, _, hc⟩ := b_request_fields f req
  refine ⟨r, hr, ?_, ?_⟩
  · intro m hi hm
    rw [hi, hm] at hc
    exact ⟨(Prod.mk.inj hc).1, (Prod.mk.inj hc).2⟩
  · intro h
    have hc2 : (r.CODAmount, r.CODCurrency) = ("0", "USD") := by
      rcases h with h | h
      · rw [h] at hc; exact hc
      · rw [h] at hc
        cases hi : req.IsCOD <;> rw [hi] at hc <;> exact hc
    exact ⟨(Prod.mk.inj hc2).1, (Prod.mk.inj hc2).2⟩

theorem C22_cod_fields_witness :
    (requestNoCod.IsCOD = false ∨ requestNoCod.CODAmount = none) ∧
    requestNoCod.CODAmount = some { Amount := 25 / 2, Currency := "EUR" } ∧
    ∃ r, b.request sprintf2f (some requestNoCod) = .ok r ∧
      r.CODAmount = "0" ∧ r.CODCurrency = "USD" := by
  obtain ⟨r, hr, _, h⟩ := C22_cod_fields sprintf2f requestNoCod
  exact ⟨Or.inl rfl, rfl, r, hr, h (Or.inl rfl)⟩

/-! ## Claims about serialisation and the concrete transport -/

theorem firstError_ne_none {α : Type} (l : List (Except GoError α)) (e : GoError)
    (h : .error e ∈ l) : response.firstError l ≠ none := by
  induction l with
  | nil => cases h
  | cons x xs ih =>
    cases x with
    | error err => simp [response.firstError]
    | ok v =>
      simp only [response.firstError]
      apply ih
      rcases List.mem_cons.mp h with h | h
      · cases h
      · exact h

/-- `Response.write` panics as soon as one outcome carries bytes that the
encoder refuses. -/
theorem write_panics_of_refused (compact : List Nat → Except GoError (List Nat))
    (resp : List api.ShippingResponse) (r : api.ShippingResponse) (b : List Nat) (e : GoError)
    (hr : r ∈ resp) (hb : r.RawResponse = some b) (hc : compact b = .error e) :
    response.write compact (.ShippingResponses (some resp)) ≠ none := by
  have hne : response.encodeErr compact (.ShippingResponses (some resp)) ≠ none := by
    simp only [response.encodeErr, Option.getD_some]
    apply firstError_ne_none _
      (.other ("json: error calling MarshalJSON for type json.RawMessage: " ++ e.Error))
    rw [List.mem_map]
    exact ⟨r, hr, by simp [response.encodeRawMessage, hb, hc]⟩
  unfold response.write
  cases h : response.encodeErr compact (.ShippingResponses (some resp)) with
  | none => exact absurd h hne
  | some err => simp

/-- C23 fails on the code: a carrier that answers with an empty body makes
`Client.Do` return the empty, non-nil byte slice without error, `Send` returns
an outcome with that RawResponse, `CreateShipping` writes the 201 header and
hands the outcome to `Response.write`, which panics with the error of the
encoder, which refuses an empty `json.RawMessage`. -/
theorem C23_write_panics_on_empty_body (compact : List Nat → Except GoError (List Nat))
    (e : GoError) (hcompact : compact [] = .error e) :
    clientEmptyBody.Do 0 providerX.To (providerX.Payload (some requestEmpty)) = (some [], none) ∧
      handlerEmptyBody.CreateShipping compact
          { body := some requestEmpty, query := none, ctx := 0 } =
        { status := 201
          payload := .ShippingResponses
            (some [{ Endpoint := "https://x.example.com", RawResponse := some [], Error := "" }])
          panic := some (.other
            ("json: error calling MarshalJSON for type json.RawMessage: " ++ e.Error)) } ∧
      response.write compact
          (handlerEmptyBody.CreateShipping compact
            { body := some requestEmpty, query := none, ctx := 0 }).payload =
        some (.other
          ("json: error calling MarshalJSON for type json.RawMessage: " ++ e.Error)) := by
  have h2 := CreateShipping_of_ok compact handlerEmptyBody requestEmpty none 0 _
    handlerEmptyBody_sender
  rw [write_empty_body compact e hcompact] at h2
  refine ⟨rfl, h2, ?_⟩
  rw [h2]
  exact write_empty_body compact e hcompact

theorem C23_write_panics_on_empty_body_witness :
    compactNonEmpty [] = .error (.other "unexpected end of JSON input") ∧
    response.write compactNonEmpty
        (handlerEmptyBody.CreateShipping compactNonEmpty
          { body := some requestEmpty, query := none, ctx := 0 }).payload =
      some (.other
        ("json: error calling MarshalJSON for type json.RawMessage: " ++
          (GoError.other "unexpected end of JSON input").Error)) :=
  ⟨rfl,
    (C23_write_panics_on_empty_body compactNonEmpty (.other "unexpected end of JSON input")
      rfl).2.2⟩

/-- The two shapes of what `Client.Do` returns. -/
theorem Do_cases (c : request.Client) (ctx : Context) (dest : String) (payload : Bytes) :
    (∃ e, c.Do ctx dest payload = (none, some e)) ∨
      ∃ req resp b, c.newRequest ctx dest payload = .ok req ∧ c.cli req = .ok resp ∧
        resp.Body = .ok b ∧ c.Do ctx dest payload = (some b, none) := by
  cases hreq : c.newRequest ctx dest payload with
  | error err => exact Or.inl ⟨err, by simp only [request.Client.Do, hreq]⟩
  | ok req =>
    cases hresp : c.cli req with
    | error err => exact Or.inl ⟨err, by simp only [request.Client.Do, hreq, hresp]⟩
    | ok resp =>
      cases hbody : resp.Body with
      | error err =>
        exact Or.inl ⟨err, by simp only [request.Client.Do, hreq, hresp, hbody]⟩
      | ok b =>
        exact Or.inr ⟨req, resp, b, rfl, hresp, hbody,
          by simp only [request.Client.Do, hreq, hresp, hbody]⟩

/-- C24: `Client.Do` returns the response body with a nil error whenever the
request is built, the round trip succeeds and the body is read, whatever the
status code, and nil bytes with the error in every other case.  So for a
service sending through this client, a job whose transport fails emits an
outcome with a nil RawResponse, and a job whose carrier answers (with any
status code) is persisted with the body and, when persistence succeeds,
reported with that body and an empty Error. -/
theorem C24_Do_body_or_nil (c : request.Client) (ctx : Context) (dest : String)
    (payload : Bytes) :
    (∀ req resp b, c.newRequest ctx dest payload = .ok req → c.cli req = .ok resp →
        resp.Body = .ok b → c.Do ctx dest payload = (some b, none)) ∧
      (∀ e, (c.Do ctx dest payload).2 = some e → (c.Do ctx dest payload).1 = none) ∧
      ((c.Do ctx dest payload).2 = none →
        ∃ req resp b, c.newRequest ctx dest payload = .ok req ∧ c.cli req = .ok resp ∧
          resp.Body = .ok b ∧ (c.Do ctx dest payload).1 = some b) ∧
      ∀ (s : Shipment) (req : Option api.ShippingRequest) (i : Nat) (j : job) (p : Payloader),
        s.client i = c.Do → j.payloader = some p → dest = p.To → payload = p.Payload req →
        (∀ e, (c.Do ctx dest payload).2 = some e →
          (s.unit ctx req i j).1 =
            some { Endpoint := p.To, RawResponse := none, Error := e.Error }) ∧
        ∀ b, c.Do ctx dest payload = (some b, none) →
          Call.Save i ctx j.provider (some b) ∈ (s.unit ctx req i j).2 ∧
            (s.storage i ctx j.provider (some b) = none →
              (s.unit ctx req i j).1 =
                some { Endpoint := p.To, RawResponse := some b, Error := "" }) := by
  have hfail : ∀ e, (c.Do ctx dest payload).2 = some e → (c.Do ctx dest payload).1 = none := by
    intro e he
    rcases Do_cases c ctx dest payload with ⟨e', h⟩ | ⟨_, _, b, _, _, _, h⟩
    · rw [h]
    · rw [h] at he; cases he
  refine ⟨?_, hfail, ?_, ?_⟩
  · intro req resp b hreq hresp hbody
    simp only [request.Client.Do, hreq, hresp, hbody]
  · intro hnone
    rcases Do_cases c ctx dest payload with ⟨e', h⟩ | ⟨req, resp, b, hreq, hresp, hbody, h⟩
    · rw [h] at hnone; cases hnone
    · exact ⟨req, resp, b, hreq, hresp, hbody, by rw [h]⟩
  · intro s req i j p hs hp hdest hpayload
    subst hdest hpayload
    constructor
    · intro e he
      have hdo : s.client i ctx p.To (p.Payload req) = (none, some e) := by
        rw [hs]
        exact Prod.ext (hfail e he) he
      rw [unit_transport_error s ctx req i j p none e hp hdo]
    · intro b hb
      have hdo : s.client i ctx p.To (p.Payload req) = (some b, none) := by rw [hs]; exact hb
      constructor
      · rw [unit_trace, hp]
        simp [hdo]
      · intro hsave
        rw [unit_success s ctx req i j p (some b) hp hdo hsave]

theorem C24_Do_body_or_nil_witness :
    (clientRefused.Do 0 providerX.To (providerX.Payload none)).2 =
        some (.other "connection refused") ∧
    (clientRefused.Do 0 providerX.To (providerX.Payload none)).1 = none ∧
    clientEmptyBody.Do 0 providerX.To (providerX.Payload none) = (some [], none) :=
  ⟨rfl,
    (C24_Do_body_or_nil clientRefused 0 providerX.To (providerX.Payload none)).2.1
      (.other "connection refused") rfl,
    (C24_Do_body_or_nil clientEmptyBody 0 providerX.To (providerX.Payload none)).1
      { ctx := 0, method := "POST", url := providerX.To, body := [34, 65, 81, 61, 61, 34],
        contentType := "application/json" }
      { StatusCode := 502, Body := .ok [] } [] rfl rfl rfl⟩

end Axiogate
